import Mathlib

/-!
# kvaser_interface: `src/linuxcan.cpp`

A shallow embedding of `AS::CAN::KvaserCan` (open, isOpen, close, read, write,
constructor and destructor) and of `AS::CAN::KvaserCanUtils` (status
translation, channel count, channel enumeration, status descriptions).

The vendor driver (canlib) is external.  It is modelled as an oracle: every
driver entry point is a function of the history of driver calls made so far
(with their answers) and of the call's arguments.  A deterministic driver with
arbitrary internal state is such a function, so quantifying over `Driver`
quantifies over every driver behaviour.  Each operation of the session takes
the history, and returns it extended with the driver calls it made, the newest
call first.

Machine integers are `Int` (signed) and `Nat` (unsigned); the two casts
`(uint32_t) hardware_id` and `(uint32_t) circuit_id` are explicit `% 2 ^ 32`.
A buffer filled by `canGetChannelData` is two 32-bit words, read at the type
of the caller's buffer as on a little-endian host.
-/

namespace AS.CAN

/-! ## Constants of the vendor header `canlib.h` -/

/-- Driver status `canOK`. -/
def canOK : Int := 0
/-- Driver status `canERR_PARAM`. -/
def canERR_PARAM : Int := -1
/-- Driver status `canERR_NOMSG`. -/
def canERR_NOMSG : Int := -2
/-- Driver status `canERR_NOTFOUND`. -/
def canERR_NOTFOUND : Int := -3
/-- Driver status `canERR_NOTINITIALIZED`. -/
def canERR_NOTINITIALIZED : Int := -8

/-- Message flag `canMSG_RTR`: remote request. -/
def canMSG_RTR : Nat := 0x01
/-- Message flag `canMSG_STD`: standard (11-bit) identifier. -/
def canMSG_STD : Nat := 0x02
/-- Message flag `canMSG_EXT`: extended (29-bit) identifier. -/
def canMSG_EXT : Nat := 0x04
/-- Message flag `canMSG_ERROR_FRAME`. -/
def canMSG_ERROR_FRAME : Nat := 0x20
/-- Message flag `canMSG_TXACK`: transmit acknowledgement. -/
def canMSG_TXACK : Nat := 0x40

/-- Status flag `canSTAT_BUS_OFF`. -/
def canSTAT_BUS_OFF : Nat := 0x02

/-- Flag `canOPEN_ACCEPT_VIRTUAL` of `canOpenChannel`. -/
def canOPEN_ACCEPT_VIRTUAL : Int := 0x20
/-- Function code `canIOCTL_SET_LOCAL_TXECHO` of `canIoCtl`. -/
def canIOCTL_SET_LOCAL_TXECHO : Nat := 32
/-- Driver type `canDRIVER_NORMAL` of `canSetBusOutputControl`. -/
def canDRIVER_NORMAL : Nat := 4

/-- Bit-rate constant `canBITRATE_1M`. -/
def canBITRATE_1M : Int := -1
/-- Bit-rate constant `canBITRATE_500K`. -/
def canBITRATE_500K : Int := -2
/-- Bit-rate constant `canBITRATE_250K`. -/
def canBITRATE_250K : Int := -3
/-- Bit-rate constant `canBITRATE_125K`. -/
def canBITRATE_125K : Int := -4

/-! ## Data model -/

/-- Modelled from the spec: the result enumeration `ReturnStatuses`, declared in
the header `kvaser_interface/kvaser_interface.h`, which is not among the
sources; the nine values are those of the spec's "Result code". -/
inductive ReturnStatuses where
  | OK
  | INIT_FAILED
  | BAD_PARAM
  | NO_CHANNELS_FOUND
  | CHANNEL_CLOSED
  | NO_MESSAGES_RECEIVED
  | READ_FAILED
  | WRITE_FAILED
  | CLOSE_FAILED
deriving DecidableEq, Repr

/-- The item codes of `canGetChannelData` that the source queries. -/
inductive ChannelDataItem where
  | CARD_SERIAL_NO
  | CARD_NUMBER
  | CHAN_NO_ON_CARD
  | CARD_TYPE
  | CARD_FIRMWARE_REV
  | MAX_BITRATE
deriving DecidableEq, Repr

/-- The eight bytes a `canGetChannelData` call writes, as two 32-bit words:
`w0` is element 0 of `uint32_t serial[2]` (and the whole of a `uint32_t`
buffer), `w1` is element 1. -/
structure ChannelData where
  w0 : Nat
  w1 : Nat
deriving DecidableEq, Repr

/-- The out-parameters of one `canRead` call: identifier, payload, length,
flag word and timestamp. -/
structure CanFrame where
  id : Int
  msg : List Nat
  size : Nat
  flag : Nat
  time : Nat
deriving DecidableEq, Repr

/-- One driver call together with the driver's answer. -/
inductive DriverEvent where
  | initializeLibrary
  | getNumberOfChannels (stat : Int) (numChan : Int)
  | getChannelData (idx : Int) (item : ChannelDataItem) (stat : Int) (data : ChannelData)
  | openChannel (channel : Int) (flags : Int) (hnd : Int)
  | setBusParams (hnd : Int) (freq : Int) (stat : Int)
  | ioCtl (hnd : Int) (func : Nat) (val : Nat) (stat : Int)
  | setBusOutputControl (hnd : Int) (drivertype : Nat) (stat : Int)
  | busOn (hnd : Int) (stat : Int)
  | readStatus (hnd : Int) (stat : Int) (flags : Nat)
  | close (hnd : Int) (stat : Int)
  | read (hnd : Int) (stat : Int) (frame : CanFrame)
  | write (hnd : Int) (id : Int) (msg : List Nat) (size : Nat) (flag : Nat) (stat : Int)
deriving DecidableEq, Repr

/-- The history of driver calls, newest first. -/
abbrev Trace := List DriverEvent

/-- The vendor driver as an oracle: each entry point answers from the history
of calls so far and its arguments.  `canRead` also receives the current
contents of the caller's buffers and returns their contents after the call, so
a driver that leaves a buffer untouched is expressible. -/
structure Driver where
  canGetNumberOfChannels : Trace → Int × Int
  canGetChannelData : Trace → Int → ChannelDataItem → Int × ChannelData
  canOpenChannel : Trace → Int → Int → Int
  canSetBusParams : Trace → Int → Int → Int
  canIoCtl : Trace → Int → Nat → Nat → Int
  canSetBusOutputControl : Trace → Int → Nat → Int
  canBusOn : Trace → Int → Int
  canReadStatus : Trace → Int → Int × Nat
  canClose : Trace → Int → Int
  canRead : Trace → Int → CanFrame → Int × CanFrame
  canWrite : Trace → Int → Int → List Nat → Nat → Nat → Int

/-- The session object `KvaserCan`: the handle (`*handle`) and the `on_bus`
flag. -/
structure KvaserCan where
  handle : Int
  on_bus : Bool
deriving DecidableEq, Repr

/-- The caller's out-parameters of `KvaserCan::read`. -/
structure ReadOut where
  id : Int
  msg : List Nat
  size : Nat
  extended : Bool
  time : Nat
deriving DecidableEq, Repr

/-! ## `KvaserCanUtils` -/

/-- `KvaserCanUtils::canlibStatToReturnStatus` (lines 231-244). -/
def KvaserCanUtils.canlibStatToReturnStatus (canlibStat : Int) : ReturnStatuses :=
  if canlibStat = canOK then ReturnStatuses.OK
  else if canlibStat = canERR_PARAM then ReturnStatuses.BAD_PARAM
  else if canlibStat = canERR_NOTFOUND then ReturnStatuses.NO_CHANNELS_FOUND
  else ReturnStatuses.INIT_FAILED

/-- `KvaserCanUtils::getChannelCount` (lines 246-251): the translated status,
the value written to `*numChan`, and the extended history. -/
def KvaserCanUtils.getChannelCount (drv : Driver) (t : Trace) : ReturnStatuses × Int × Trace :=
  let r := drv.canGetNumberOfChannels t
  (KvaserCanUtils.canlibStatToReturnStatus r.1, r.2,
    DriverEvent.getNumberOfChannels r.1 r.2 :: t)

/-! ## `KvaserCan` -/

/-- The constructor `KvaserCan::KvaserCan` (lines 15-20): the handle is the
sentinel `-1` and the library is initialised.  The initial value `false` of
`on_bus` is modelled from the spec ("constructed in the not-open state"): the
member's initialiser is in the header, which is not among the sources. -/
def KvaserCan.new (t : Trace) : KvaserCan × Trace :=
  ({ handle := -1, on_bus := false }, DriverEvent.initializeLibrary :: t)

/-- The destructor `KvaserCan::~KvaserCan` (lines 22-26): closes the handle if
it is greater than `-1`; returns the extended history. -/
def KvaserCan.destroy (drv : Driver) (t : Trace) (s : KvaserCan) : Trace :=
  if s.handle > -1 then DriverEvent.close s.handle (drv.canClose t s.handle) :: t else t

/-- The cast `(uint32_t) x` of an `int32_t`. -/
def toUInt32 (x : Int) : Nat := (x % 2 ^ 32).toNat

/-- One iteration of the resolution loop of `KvaserCan::open` (the body, lines
49-61) at index `idx`: the new value of `channel` and the extended history. -/
def scanStep (drv : Driver) (hardware_id circuit_id : Int) (idx : Int) (t : Trace)
    (channel : Int) : Int × Trace :=
  let r1 := drv.canGetChannelData t idx ChannelDataItem.CARD_SERIAL_NO
  let t1 := DriverEvent.getChannelData idx ChannelDataItem.CARD_SERIAL_NO r1.1 r1.2 :: t
  if r1.1 = canOK then
    if r1.2.w0 % 2 ^ 32 = toUInt32 hardware_id then
      let r2 := drv.canGetChannelData t1 idx ChannelDataItem.CHAN_NO_ON_CARD
      let t2 := DriverEvent.getChannelData idx ChannelDataItem.CHAN_NO_ON_CARD r2.1 r2.2 :: t1
      if r2.1 = canOK then
        if r2.2.w0 % 2 ^ 32 = toUInt32 circuit_id then (idx, t2)
        else (channel, t2)
      else (channel, t2)
    else (channel, t1)
  else (channel, t1)

/-- The resolution loop of `KvaserCan::open` (lines 47-62), started at index
`idx` with `remaining` iterations to go and the current value of `channel`.
Returns the final `channel` and the extended history. -/
def scanChannels (drv : Driver) (hardware_id circuit_id : Int) :
    Nat → Int → Trace → Int → Int × Trace
  | 0, _, t, channel => (channel, t)
  | remaining + 1, idx, t, channel =>
    let st := scanStep drv hardware_id circuit_id idx t channel
    scanChannels drv hardware_id circuit_id remaining (idx + 1) st.2 st.1

/-- The `switch (bitrate)` of `KvaserCan::open` (lines 78-85); `none` is the
`default` branch. -/
def freqOfBitrate (bitrate : Int) : Option Int :=
  if bitrate = 125000 then some canBITRATE_125K
  else if bitrate = 250000 then some canBITRATE_250K
  else if bitrate = 500000 then some canBITRATE_500K
  else if bitrate = 1000000 then some canBITRATE_1M
  else none

/-- `KvaserCan::open` (lines 28-109). -/
def KvaserCan.open (drv : Driver) (t : Trace) (s : KvaserCan)
    (hardware_id circuit_id bitrate : Int) (echo_on : Bool) :
    ReturnStatuses × KvaserCan × Trace :=
  if s.on_bus then (ReturnStatuses.OK, s, t)
  else
    let c := KvaserCanUtils.getChannelCount drv t
    if c.1 ≠ ReturnStatuses.OK then (c.1, s, c.2.2)
    else
      let sc := scanChannels drv hardware_id circuit_id c.2.1.toNat 0 c.2.2 (-1)
      if sc.1 = -1 then (ReturnStatuses.BAD_PARAM, s, sc.2)
      else
        let h := drv.canOpenChannel sc.2 sc.1 canOPEN_ACCEPT_VIRTUAL
        let t3 := DriverEvent.openChannel sc.1 canOPEN_ACCEPT_VIRTUAL h :: sc.2
        let s1 : KvaserCan := { s with handle := h }
        if h < 0 then (ReturnStatuses.INIT_FAILED, s1, t3)
        else
          match freqOfBitrate bitrate with
          | none => (ReturnStatuses.BAD_PARAM, s1, t3)
          | some freq =>
            let r4 := drv.canSetBusParams t3 h freq
            let t4 := DriverEvent.setBusParams h freq r4 :: t3
            if r4 < 0 then (ReturnStatuses.BAD_PARAM, s1, t4)
            else
              let t5 :=
                if echo_on then t4
                else DriverEvent.ioCtl h canIOCTL_SET_LOCAL_TXECHO 0
                  (drv.canIoCtl t4 h canIOCTL_SET_LOCAL_TXECHO 0) :: t4
              let t6 := DriverEvent.setBusOutputControl h canDRIVER_NORMAL
                (drv.canSetBusOutputControl t5 h canDRIVER_NORMAL) :: t5
              let r7 := drv.canBusOn t6 h
              let t7 := DriverEvent.busOn h r7 :: t6
              if r7 < 0 then (ReturnStatuses.INIT_FAILED, s1, t7)
              else (ReturnStatuses.OK, { s1 with on_bus := true }, t7)

/-- `KvaserCan::close` (lines 145-158). -/
def KvaserCan.close (drv : Driver) (t : Trace) (s : KvaserCan) :
    ReturnStatuses × KvaserCan × Trace :=
  if s.handle < 0 then (ReturnStatuses.CHANNEL_CLOSED, s, t)
  else
    let r := drv.canClose t s.handle
    let t1 := DriverEvent.close s.handle r :: t
    if r ≠ canOK then (ReturnStatuses.CLOSE_FAILED, s, t1)
    else (ReturnStatuses.OK, { handle := -1, on_bus := false }, t1)

/-- `KvaserCan::isOpen` (lines 111-143). -/
def KvaserCan.isOpen (drv : Driver) (t : Trace) (s : KvaserCan) : Bool × KvaserCan × Trace :=
  if s.handle < 0 then (false, s, t)
  else if s.on_bus then
    let r := drv.canReadStatus t s.handle
    let t1 := DriverEvent.readStatus s.handle r.1 r.2 :: t
    if r.1 ≠ canOK then (false, s, t1)
    else if (r.2 &&& canSTAT_BUS_OFF) > 1 then
      let c := KvaserCan.close drv t1 s
      (false, c.2.1, c.2.2)
    else (true, s, t1)
  else (false, s, t)

/-- The `while (!done)` loop of `KvaserCan::read` (lines 175-203), with `fuel`
bounding the number of iterations: `none` when the fuel runs out before the
loop ends.  Returns `ret_val`, the session, the buffers as the last `canRead`
left them, and the extended history. -/
def readLoop (drv : Driver) :
    Nat → Trace → KvaserCan → CanFrame → Option (ReturnStatuses × KvaserCan × CanFrame × Trace)
  | 0, _, _, _ => none
  | fuel + 1, t, s, buf =>
    let r := drv.canRead t s.handle buf
    let t1 := DriverEvent.read s.handle r.1 r.2 :: t
    if r.1 = canERR_NOTINITIALIZED then
      some (ReturnStatuses.CHANNEL_CLOSED, { s with on_bus := false }, r.2, t1)
    else if r.1 = canERR_NOMSG then
      some (ReturnStatuses.NO_MESSAGES_RECEIVED, s, r.2, t1)
    else if r.1 ≠ canOK then
      some (ReturnStatuses.READ_FAILED, s, r.2, t1)
    else if r.2.flag &&& 0xF9 = 0 then
      some (ReturnStatuses.OK, s, r.2, t1)
    else readLoop drv fuel t1 s r.2

/-- The buffers handed to the first `canRead`: the caller's `id`, `msg`,
`size`, `time` and the local `flag = 0`. -/
def ReadOut.toFrame (out : ReadOut) : CanFrame :=
  { id := out.id, msg := out.msg, size := out.size, flag := 0, time := out.time }

/-- `KvaserCan::read` (lines 160-209).  `out` holds the caller's buffers before
the call; the result holds them after it. -/
def KvaserCan.read (drv : Driver) (fuel : Nat) (t : Trace) (s : KvaserCan) (out : ReadOut) :
    Option (ReturnStatuses × KvaserCan × ReadOut × Trace) :=
  if s.handle < 0 then some (ReturnStatuses.CHANNEL_CLOSED, s, out, t)
  else
    match readLoop drv fuel t s out.toFrame with
    | none => none
    | some (ret_val, s1, buf, t1) =>
      some (ret_val, s1,
        { id := buf.id, msg := buf.msg, size := buf.size,
          extended :=
            if ret_val = ReturnStatuses.OK then decide ((buf.flag &&& canMSG_EXT) > 0)
            else out.extended,
          time := buf.time },
        t1)

/-- `KvaserCan::write` (lines 211-229). -/
def KvaserCan.write (drv : Driver) (t : Trace) (s : KvaserCan)
    (id : Int) (msg : List Nat) (size : Nat) (extended : Bool) :
    ReturnStatuses × KvaserCan × Trace :=
  if s.handle < 0 then (ReturnStatuses.CHANNEL_CLOSED, s, t)
  else
    let flag := if extended then canMSG_EXT else canMSG_STD
    let ret := drv.canWrite t s.handle id msg size flag
    (if ret = canOK then ReturnStatuses.OK else ReturnStatuses.WRITE_FAILED, s,
      DriverEvent.write s.handle id msg size flag ret :: t)

/-! ## `KvaserCanUtils`: enumeration and descriptions -/

/-- Modelled from the spec: the descriptor `KvaserChannel`, declared in the
header `kvaser_interface/kvaser_interface.h`, which is not among the sources;
the fields are those `getChannels` assigns (the spec's "ChannelDescriptor").
`hw_type` holds the numeric value of the `HardwareType` enumerator. -/
structure KvaserChannel where
  channel_no : Int
  serial_no : Nat
  card_no : Nat
  channel_no_on_card : Nat
  hw_type : Nat
  firmware_rev_maj : Nat
  firmware_rev_min : Nat
  firmware_rev_rel : Nat
  firmware_rev_bld : Nat
  max_bitrate : Nat
  all_data_valid : Bool
deriving DecidableEq, Repr

/-- The value of a `uint64_t` buffer filled by `canGetChannelData` (eight
bytes, little-endian host): the two 32-bit words, low word first. -/
def ChannelData.toUInt64 (d : ChannelData) : Nat := d.w0 % 2 ^ 32 + 2 ^ 32 * (d.w1 % 2 ^ 32)

/-- The value of a `uint32_t` buffer filled by `canGetChannelData`. -/
def ChannelData.toUInt32 (d : ChannelData) : Nat := d.w0 % 2 ^ 32

/-- Element `k` of a `uint16_t[4]` buffer filled by `canGetChannelData` (eight
bytes, little-endian host). -/
def ChannelData.toUInt16 (d : ChannelData) (k : Nat) : Nat :=
  match k with
  | 0 => d.w0 % 2 ^ 16
  | 1 => d.w0 / 2 ^ 16 % 2 ^ 16
  | 2 => d.w1 % 2 ^ 16
  | _ => d.w1 / 2 ^ 16 % 2 ^ 16

/-- One metadata query of the loop body of `KvaserCanUtils::getChannels`, the
pattern repeated six times in lines 281-328: `canGetChannelData` for `item` at
index `i`; on `canOK` the field is assigned from the buffer (`assign`),
otherwise `all_data_valid` is cleared.  Returns the descriptor and the
extended history. -/
def queryField (drv : Driver) (i : Int) (item : ChannelDataItem)
    (assign : KvaserChannel → ChannelData → KvaserChannel) (chan : KvaserChannel) (t : Trace) :
    KvaserChannel × Trace :=
  let r := drv.canGetChannelData t i item
  (if r.1 = canOK then assign chan r.2 else { chan with all_data_valid := false },
    DriverEvent.getChannelData i item r.1 r.2 :: t)

/-- The body of the loop of `KvaserCanUtils::getChannels` (lines 269-330) for
index `i`, from history `t`; `chan0` is the default-constructed
`KvaserChannel` (its member initialisers are in the header, which is not among
the sources).  Returns the descriptor pushed and the extended history. -/
def getChannelsStep (drv : Driver) (chan0 : KvaserChannel) (i : Int) (t : Trace) :
    KvaserChannel × Trace :=
  let s0 : KvaserChannel := { chan0 with channel_no := i }
  let s1 := queryField drv i ChannelDataItem.CARD_SERIAL_NO
    (fun c d => { c with serial_no := d.toUInt64 }) s0 t
  let s2 := queryField drv i ChannelDataItem.CARD_NUMBER
    (fun c d => { c with card_no := d.toUInt32 }) s1.1 s1.2
  let s3 := queryField drv i ChannelDataItem.CHAN_NO_ON_CARD
    (fun c d => { c with channel_no_on_card := d.toUInt32 }) s2.1 s2.2
  let s4 := queryField drv i ChannelDataItem.CARD_TYPE
    (fun c d => { c with hw_type := d.toUInt32 }) s3.1 s3.2
  let s5 := queryField drv i ChannelDataItem.CARD_FIRMWARE_REV
    (fun c d =>
      { c with
        firmware_rev_maj := d.toUInt16 0
        firmware_rev_min := d.toUInt16 1
        firmware_rev_rel := d.toUInt16 2
        firmware_rev_bld := d.toUInt16 3 }) s4.1 s4.2
  queryField drv i ChannelDataItem.MAX_BITRATE
    (fun c d => { c with max_bitrate := d.toUInt32 }) s5.1 s5.2

/-- The loop of `KvaserCanUtils::getChannels` (lines 267-331), started at index
`i` with `remaining` iterations to go and the vector `channels` built so far.
Returns the final vector and the extended history. -/
def getChannelsLoop (drv : Driver) (chan0 : KvaserChannel) :
    Nat → Int → Trace → List KvaserChannel → List KvaserChannel × Trace
  | 0, _, t, channels => (channels, t)
  | remaining + 1, i, t, channels =>
    let st := getChannelsStep drv chan0 i t
    getChannelsLoop drv chan0 remaining (i + 1) st.2 (channels ++ [st.1])

/-- `KvaserCanUtils::getChannels` (lines 253-335). -/
def KvaserCanUtils.getChannels (drv : Driver) (chan0 : KvaserChannel) (t : Trace) :
    List KvaserChannel × Trace :=
  let c := KvaserCanUtils.getChannelCount drv t
  if c.1 = ReturnStatuses.OK ∧ c.2.1 > -1 ∧ c.2.1 < 300 then
    getChannelsLoop drv chan0 c.2.1.toNat 0 c.2.2 []
  else ([], c.2.2)

/-- `KvaserCanUtils::returnStatusDesc` (lines 337-359): `status_string` is
default-constructed (empty) and assigned in the matching branch, if any. -/
def KvaserCanUtils.returnStatusDesc (ret : ReturnStatuses) : String :=
  if ret = ReturnStatuses.INIT_FAILED then
    "Initialization of the CAN interface failed."
  else if ret = ReturnStatuses.BAD_PARAM then
    "A bad parameter was provided to the CAN interface during initalization."
  else if ret = ReturnStatuses.NO_CHANNELS_FOUND then
    "No available CAN channels were found."
  else if ret = ReturnStatuses.CHANNEL_CLOSED then
    "CAN channel is not currently open."
  else if ret = ReturnStatuses.NO_MESSAGES_RECEIVED then
    "No messages were received on the interface."
  else if ret = ReturnStatuses.READ_FAILED then
    "A read operation failed on the CAN interface."
  else if ret = ReturnStatuses.WRITE_FAILED then
    "A write operation failed on the CAN interface."
  else if ret = ReturnStatuses.CLOSE_FAILED then
    "Closing the CAN interface failed."
  else ""

/-! ## Vocabulary of the statements -/

/-- The driver answers the next `canRead` calls on handle `hnd` with exactly the
answers `rs`, in order: the first from history `t` with buffers `buf`, each
later one from the history and buffers the previous call left. -/
def Delivers (drv : Driver) (hnd : Int) : Trace → CanFrame → List (Int × CanFrame) → Prop
  | _, _, [] => True
  | t, buf, r :: rs =>
    drv.canRead t hnd buf = r ∧ Delivers drv hnd (DriverEvent.read hnd r.1 r.2 :: t) r.2 rs

/-- The history and the buffers after the reads answered by `rs`. -/
def afterReads (hnd : Int) : Trace → CanFrame → List (Int × CanFrame) → Trace × CanFrame
  | t, buf, [] => (t, buf)
  | t, _, r :: rs => afterReads hnd (DriverEvent.read hnd r.1 r.2 :: t) r.2 rs

/-- The number of `canRead` calls recorded in a history. -/
def countReads : Trace → Nat
  | [] => 0
  | DriverEvent.read _ _ _ :: t => countReads t + 1
  | _ :: t => countReads t

/-- The event is a `canGetChannelData` call. -/
def DriverEvent.isChannelData : DriverEvent → Bool
  | DriverEvent.getChannelData _ _ _ _ => true
  | _ => false

/-- The event is one of the calls `open` makes after the bit-rate `switch`:
`canSetBusParams`, `canIoCtl`, `canSetBusOutputControl` or `canBusOn`. -/
def DriverEvent.isBusConfig : DriverEvent → Bool
  | DriverEvent.setBusParams _ _ _ => true
  | DriverEvent.ioCtl _ _ _ _ => true
  | DriverEvent.setBusOutputControl _ _ _ => true
  | DriverEvent.busOn _ _ => true
  | _ => false

/-- The channel indices of the `canOpenChannel` calls of a history, newest
first. -/
def openedChannels : Trace → List Int
  | [] => []
  | DriverEvent.openChannel channel _ _ :: t => channel :: openedChannels t
  | _ :: t => openedChannels t

/-- The resolution scan as `open` runs it from history `t` (lines 38-62): the
count query, then the loop over the indices below the reported count, started
with `channel = -1`.  Returns the final `channel` and the extended history. -/
def resolveScan (drv : Driver) (t : Trace) (hardware_id circuit_id : Int) : Int × Trace :=
  scanChannels drv hardware_id circuit_id (KvaserCanUtils.getChannelCount drv t).2.1.toNat 0
    (KvaserCanUtils.getChannelCount drv t).2.2 (-1)

/-- At history `t` the serial-number read of index `idx` succeeds and the word
the scan compares, `serial[0]`, equals `(uint32_t) hardware_id` (line 49 and
line 51). -/
def SerialMatchesAt (drv : Driver) (hardware_id : Int) (t : Trace) (idx : Int) : Prop :=
  (drv.canGetChannelData t idx ChannelDataItem.CARD_SERIAL_NO).1 = canOK ∧
    (drv.canGetChannelData t idx ChannelDataItem.CARD_SERIAL_NO).2.w0 % 2 ^ 32 =
      toUInt32 hardware_id

/-- At history `t` the read of the on-card channel number of index `idx`
succeeds and the number equals `(uint32_t) circuit_id` (line 53 and line 55). -/
def CircuitMatchesAt (drv : Driver) (circuit_id : Int) (t : Trace) (idx : Int) : Prop :=
  (drv.canGetChannelData t idx ChannelDataItem.CHAN_NO_ON_CARD).1 = canOK ∧
    (drv.canGetChannelData t idx ChannelDataItem.CHAN_NO_ON_CARD).2.w0 % 2 ^ 32 =
      toUInt32 circuit_id

/-- Index `idx` satisfies both predicates, whenever it is asked: its serial
number is read successfully and equals `hardware_id`, and its on-card channel
number is read successfully and equals `circuit_id`. -/
def IsMatch (drv : Driver) (hardware_id circuit_id : Int) (idx : Int) : Prop :=
  (∀ t, SerialMatchesAt drv hardware_id t idx) ∧ (∀ t, CircuitMatchesAt drv circuit_id t idx)

/-- Index `idx` does not satisfy both predicates, whenever it is asked: its
serial read fails or gives another serial, or its on-card channel read fails
or gives another number. -/
def IsNoMatch (drv : Driver) (hardware_id circuit_id : Int) (idx : Int) : Prop :=
  (∀ t, ¬ SerialMatchesAt drv hardware_id t idx) ∨
    (∀ t, ¬ CircuitMatchesAt drv circuit_id t idx)

/-- The driver's side of the handle bookkeeping, read off a history: the
handles that `canOpenChannel` returned (non-negative) and that no successful
`canClose` has released since, newest first. -/
def openHandles : Trace → List Int
  | [] => []
  | DriverEvent.openChannel _ _ hnd :: t =>
    if 0 ≤ hnd then hnd :: openHandles t else openHandles t
  | DriverEvent.close hnd stat :: t =>
    if stat = canOK then (openHandles t).filter (fun h => h ≠ hnd) else openHandles t
  | _ :: t => openHandles t

/-- A call of the session's public interface, with its arguments; `read`
carries the iteration bound of its loop and the caller's buffers. -/
inductive Call where
  | open (hardware_id circuit_id bitrate : Int) (echo_on : Bool)
  | isOpen
  | close
  | read (fuel : Nat) (out : ReadOut)
  | write (id : Int) (msg : List Nat) (size : Nat) (extended : Bool)
deriving DecidableEq, Repr

/-- The session and the history after one call; `none` when a `read` does not
return within its bound. -/
def step (drv : Driver) (w : KvaserCan × Trace) : Call → Option (KvaserCan × Trace)
  | Call.open hardware_id circuit_id bitrate echo_on =>
    some (KvaserCan.open drv w.2 w.1 hardware_id circuit_id bitrate echo_on).2
  | Call.isOpen => some (KvaserCan.isOpen drv w.2 w.1).2
  | Call.close => some (KvaserCan.close drv w.2 w.1).2
  | Call.read fuel out =>
    match KvaserCan.read drv fuel w.2 w.1 out with
    | none => none
    | some r => some (r.2.1, r.2.2.2)
  | Call.write id msg size extended =>
    some (KvaserCan.write drv w.2 w.1 id msg size extended).2

/-- The session and the history after a sequence of calls. -/
def run (drv : Driver) : KvaserCan × Trace → List Call → Option (KvaserCan × Trace)
  | w, [] => some w
  | w, c :: cs =>
    match step drv w c with
    | none => none
    | some w1 => run drv w1 cs

/-- The history after the query of `item` for index `i`, asked at history `h`. -/
def asked (drv : Driver) (i : Int) (item : ChannelDataItem) (h : Trace) : Trace :=
  DriverEvent.getChannelData i item (drv.canGetChannelData h i item).1
    (drv.canGetChannelData h i item).2 :: h

/-- The history at which the loop body of `getChannels` for index `i`, started
from history `t`, issues its query of `item`: the six queries are issued in
the order serial, card number, on-card channel number, card type, firmware
revision, maximum bit rate. -/
def queryHistory (drv : Driver) (i : Int) (t : Trace) : ChannelDataItem → Trace
  | ChannelDataItem.CARD_SERIAL_NO => t
  | ChannelDataItem.CARD_NUMBER => asked drv i ChannelDataItem.CARD_SERIAL_NO t
  | ChannelDataItem.CHAN_NO_ON_CARD =>
    asked drv i ChannelDataItem.CARD_NUMBER (asked drv i ChannelDataItem.CARD_SERIAL_NO t)
  | ChannelDataItem.CARD_TYPE =>
    asked drv i ChannelDataItem.CHAN_NO_ON_CARD
      (asked drv i ChannelDataItem.CARD_NUMBER (asked drv i ChannelDataItem.CARD_SERIAL_NO t))
  | ChannelDataItem.CARD_FIRMWARE_REV =>
    asked drv i ChannelDataItem.CARD_TYPE
      (asked drv i ChannelDataItem.CHAN_NO_ON_CARD
        (asked drv i ChannelDataItem.CARD_NUMBER
          (asked drv i ChannelDataItem.CARD_SERIAL_NO t)))
  | ChannelDataItem.MAX_BITRATE =>
    asked drv i ChannelDataItem.CARD_FIRMWARE_REV
      (asked drv i ChannelDataItem.CARD_TYPE
        (asked drv i ChannelDataItem.CHAN_NO_ON_CARD
          (asked drv i ChannelDataItem.CARD_NUMBER
            (asked drv i ChannelDataItem.CARD_SERIAL_NO t))))

/-- The driver's answer to the query of `item` that the loop body of
`getChannels` for index `i`, started from history `t`, issues. -/
def channelReply (drv : Driver) (i : Int) (t : Trace) (item : ChannelDataItem) :
    Int × ChannelData :=
  drv.canGetChannelData (queryHistory drv i t item) i item

/-- The history before iteration `k` of the loop of `getChannels`, when the
loop started at index `i` from history `t`. -/
def getChannelsHistory (drv : Driver) (chan0 : KvaserChannel) : Nat → Int → Trace → Trace
  | 0, _, t => t
  | k + 1, i, t => getChannelsHistory drv chan0 k (i + 1) (getChannelsStep drv chan0 i t).2

/-- The frequency arguments of the `canSetBusParams` calls of a history, newest
first. -/
def busParamFreqs : Trace → List Int
  | [] => []
  | DriverEvent.setBusParams _ freq _ :: t => freq :: busParamFreqs t
  | _ :: t => busParamFreqs t

/-- The frame of the newest `canWrite` call of a history, if any, stamped with
the time `tm`. -/
def lastWritten (tm : Nat) : Trace → Option CanFrame
  | [] => none
  | DriverEvent.write _ id msg size flag _ :: _ =>
    some { id := id, msg := msg, size := size, flag := flag, time := tm }
  | _ :: t => lastWritten tm t

/-- The handle that the `canOpenChannel` call of `open` (line 70) returns, when
`open` runs from history `t` on a session that is not on bus and the scan has
resolved a channel. -/
def openedHandle (drv : Driver) (t : Trace) (hardware_id circuit_id : Int) : Int :=
  drv.canOpenChannel (resolveScan drv t hardware_id circuit_id).2
    (resolveScan drv t hardware_id circuit_id).1 canOPEN_ACCEPT_VIRTUAL

/-- The history of that `open` right after its `canOpenChannel` call: the
history at which it issues `canSetBusParams` (line 87). -/
def historyAfterOpenChannel (drv : Driver) (t : Trace) (hardware_id circuit_id : Int) : Trace :=
  DriverEvent.openChannel (resolveScan drv t hardware_id circuit_id).1 canOPEN_ACCEPT_VIRTUAL
      (openedHandle drv t hardware_id circuit_id) ::
    (resolveScan drv t hardware_id circuit_id).2

/-- The history at which that `open` issues `canBusOn` (line 102), after it has
configured the bus parameters with `freq`, switched the local echo off when
`echo_on` is false (line 96) and set the output control (line 100). -/
def historyBeforeBusOn (drv : Driver) (t : Trace) (hardware_id circuit_id : Int) (freq : Int)
    (echo_on : Bool) : Trace :=
  let h := openedHandle drv t hardware_id circuit_id
  let t3 := historyAfterOpenChannel drv t hardware_id circuit_id
  let t4 := DriverEvent.setBusParams h freq (drv.canSetBusParams t3 h freq) :: t3
  let t5 :=
    if echo_on then t4
    else DriverEvent.ioCtl h canIOCTL_SET_LOCAL_TXECHO 0
      (drv.canIoCtl t4 h canIOCTL_SET_LOCAL_TXECHO 0) :: t4
  DriverEvent.setBusOutputControl h canDRIVER_NORMAL
    (drv.canSetBusOutputControl t5 h canDRIVER_NORMAL) :: t5

/-! ## Concrete drivers used at concrete inputs -/

/-- A driver that refuses everything: every status is `canERR_PARAM`, no
channel, no handle, and `canRead` leaves the buffers untouched. -/
def nullDriver : Driver where
  canGetNumberOfChannels := fun _ => (canERR_PARAM, 0)
  canGetChannelData := fun _ _ _ => (canERR_PARAM, { w0 := 0, w1 := 0 })
  canOpenChannel := fun _ _ _ => canERR_PARAM
  canSetBusParams := fun _ _ _ => canERR_PARAM
  canIoCtl := fun _ _ _ _ => canERR_PARAM
  canSetBusOutputControl := fun _ _ _ => canERR_PARAM
  canBusOn := fun _ _ => canERR_PARAM
  canReadStatus := fun _ _ => (canERR_PARAM, 0)
  canClose := fun _ _ => canERR_PARAM
  canRead := fun _ _ buf => (canERR_PARAM, buf)
  canWrite := fun _ _ _ _ _ _ => canERR_PARAM

/-- A transmit acknowledgement as `canRead` reports it. -/
def ackFrame : CanFrame :=
  { id := 0x7FF, msg := [], size := 0, flag := canMSG_TXACK, time := 10 }

/-- A received standard data frame with identifier `0x123`. -/
def dataFrame123 : CanFrame :=
  { id := 0x123, msg := [0xDE, 0xAD], size := 2, flag := canMSG_STD, time := 30 }

/-- A driver whose receive queue holds two transmit acknowledgements and then
the data frame `0x123`; afterwards it reports "no message". -/
def ackAckDataDriver : Driver :=
  { nullDriver with
    canRead := fun t _ buf =>
      if countReads t < 2 then (canOK, ackFrame)
      else if countReads t = 2 then (canOK, dataFrame123)
      else (canERR_NOMSG, buf) }

/-- A healthy card with serial number 1234 and two channels (on-card numbers
0 and 1 at indices 0 and 1).  `canOpenChannel` hands out fresh handles 0, 1,
2, ... (the number of earlier `canOpenChannel` calls); every configuration
call, `canClose` and `canWrite` succeed; the receive queue is empty. -/
def cardDriver : Driver where
  canGetNumberOfChannels := fun _ => (canOK, 2)
  canGetChannelData := fun _ idx item =>
    if idx = 0 ∨ idx = 1 then
      match item with
      | ChannelDataItem.CARD_SERIAL_NO => (canOK, { w0 := 1234, w1 := 0 })
      | ChannelDataItem.CHAN_NO_ON_CARD => (canOK, { w0 := idx.toNat, w1 := 0 })
      | _ => (canOK, { w0 := 0, w1 := 0 })
    else (canERR_PARAM, { w0 := 0, w1 := 0 })
  canOpenChannel := fun t _ _ => ((openedChannels t).length : Int)
  canSetBusParams := fun _ _ _ => canOK
  canIoCtl := fun _ _ _ _ => canOK
  canSetBusOutputControl := fun _ _ _ => canOK
  canBusOn := fun _ _ => canOK
  canReadStatus := fun _ _ => (canOK, 0)
  canClose := fun _ _ => canOK
  canRead := fun _ _ buf => (canERR_NOMSG, buf)
  canWrite := fun _ _ _ _ _ _ => canOK

/-- A driver whose status probe succeeds and reports bus-off, and whose
`canClose` answers `closeStat`. -/
def busOffDriver (closeStat : Int) : Driver :=
  { nullDriver with
    canReadStatus := fun _ _ => (canOK, canSTAT_BUS_OFF)
    canClose := fun _ _ => closeStat }

/-- A driver with one received standard data frame, `0x123`, always ready. -/
def dataDriver : Driver :=
  { nullDriver with
    canRead := fun _ _ _ => (canOK, dataFrame123)
    canWrite := fun _ _ _ _ _ _ => canOK }

/-- A default-constructed descriptor as the spec describes it: validity flag
true, metadata fields zero. -/
def defaultChannel : KvaserChannel :=
  { channel_no := 0, serial_no := 0, card_no := 0, channel_no_on_card := 0, hw_type := 0,
    firmware_rev_maj := 0, firmware_rev_min := 0, firmware_rev_rel := 0,
    firmware_rev_bld := 0, max_bitrate := 0, all_data_valid := true }

/-- A driver reporting two channels of a card with serial `0x1_0000_04D2`:
every metadata query of index 0 succeeds; at index 1 the card-type and the
firmware-revision queries fail. -/
def partialDriver : Driver :=
  { nullDriver with
    canGetNumberOfChannels := fun _ => (canOK, 2)
    canGetChannelData := fun _ idx item =>
      match item with
      | ChannelDataItem.CARD_SERIAL_NO => (canOK, { w0 := 1234, w1 := 1 })
      | ChannelDataItem.CARD_NUMBER => (canOK, { w0 := 0, w1 := 0 })
      | ChannelDataItem.CHAN_NO_ON_CARD => (canOK, { w0 := idx.toNat, w1 := 0 })
      | ChannelDataItem.CARD_TYPE =>
        if idx = 0 then (canOK, { w0 := 48, w1 := 0 }) else (canERR_PARAM, { w0 := 7, w1 := 7 })
      | ChannelDataItem.CARD_FIRMWARE_REV =>
        if idx = 0 then (canOK, { w0 := 0x00020003, w1 := 0x00050004 })
        else (canERR_PARAM, { w0 := 7, w1 := 7 })
      | ChannelDataItem.MAX_BITRATE => (canOK, { w0 := 1000000, w1 := 0 }) }

/-- A driver whose count query succeeds with the count `n` and whose metadata
queries all fail. -/
def countDriver (n : Int) : Driver :=
  { nullDriver with canGetNumberOfChannels := fun _ => (canOK, n) }

/-- A loopback driver: `canWrite` succeeds, and `canRead` delivers the frame
written last (at time 77), or "no message" when nothing was written. -/
def loopbackDriver : Driver :=
  { nullDriver with
    canWrite := fun _ _ _ _ _ _ => canOK
    canRead := fun t _ buf =>
      match lastWritten 77 t with
      | some f => (canOK, f)
      | none => (canERR_NOMSG, buf) }

/-- A driver whose receive queue holds two transmit acknowledgements and is
empty afterwards. -/
def ackAckEmptyDriver : Driver :=
  { nullDriver with
    canRead := fun t _ buf =>
      if countReads t < 2 then (canOK, ackFrame) else (canERR_NOMSG, buf) }

/-- A remote request with a standard identifier as `canRead` reports it. -/
def rtrFrame : CanFrame :=
  { id := 0x321, msg := [], size := 0, flag := canMSG_RTR ||| canMSG_STD, time := 20 }

/-- A driver whose receive queue holds a remote request and then the data
frame `0x123`; afterwards it reports "no message". -/
def rtrDataDriver : Driver :=
  { nullDriver with
    canRead := fun t _ buf =>
      if countReads t = 0 then (canOK, rtrFrame)
      else if countReads t = 1 then (canOK, dataFrame123)
      else (canERR_NOMSG, buf) }

/-- A card with serial number 1234 and three channels whose on-card numbers
are 0, 1, 0: the pair (1234, 0) is matched by the indices 0 and 2. -/
def twinDriver : Driver :=
  { cardDriver with
    canGetNumberOfChannels := fun _ => (canOK, 3)
    canGetChannelData := fun _ idx item =>
      if idx = 0 ∨ idx = 1 ∨ idx = 2 then
        match item with
        | ChannelDataItem.CARD_SERIAL_NO => (canOK, { w0 := 1234, w1 := 0 })
        | ChannelDataItem.CHAN_NO_ON_CARD => (canOK, { w0 := if idx = 1 then 1 else 0, w1 := 0 })
        | _ => (canOK, { w0 := 0, w1 := 0 })
      else (canERR_PARAM, { w0 := 0, w1 := 0 }) }

/-- The two-channel card with a driver that refuses what does not exist:
`canOpenChannel` answers `canERR_NOTFOUND` for a channel other than 0 and 1,
and `canSetBusParams` and `canBusOn` answer an error for a negative handle. -/
def strictCardDriver : Driver :=
  { cardDriver with
    canOpenChannel := fun t channel _ =>
      if channel = 0 ∨ channel = 1 then ((openedChannels t).length : Int) else canERR_NOTFOUND
    canSetBusParams := fun _ hnd _ => if hnd < 0 then -10 else canOK
    canBusOn := fun _ hnd => if hnd < 0 then -10 else canOK }

/-! ## Lemmas on the read loop -/

theorem afterReads_trace (hnd : Int) (rs : List (Int × CanFrame)) (t : Trace) (buf : CanFrame) :
    (afterReads hnd t buf rs).1 =
      (rs.map fun r => DriverEvent.read hnd r.1 r.2).reverse ++ t := by
  induction rs generalizing t buf with
  | nil => simp [afterReads]
  | cons r rs ih => simp [afterReads, ih]

theorem delivers_append (drv : Driver) (hnd : Int) (xs ys : List (Int × CanFrame))
    (t : Trace) (buf : CanFrame) :
    Delivers drv hnd t buf (xs ++ ys) ↔
      Delivers drv hnd t buf xs ∧
        Delivers drv hnd (afterReads hnd t buf xs).1 (afterReads hnd t buf xs).2 ys := by
  induction xs generalizing t buf with
  | nil => simp [Delivers, afterReads]
  | cons r xs ih => simp [Delivers, afterReads, ih, and_assoc]

/-- Events of status `canOK` with a flag inside the mask `0xF9` are consumed:
the loop continues from the history and buffers they leave. -/
theorem readLoop_skip (drv : Driver) (s : KvaserCan) (xs : List (Int × CanFrame))
    (hxs : ∀ r ∈ xs, r.1 = canOK ∧ r.2.flag &&& 0xF9 ≠ 0)
    (t : Trace) (buf : CanFrame) (hdel : Delivers drv s.handle t buf xs) (fuel : Nat) :
    readLoop drv (xs.length + fuel) t s buf =
      readLoop drv fuel (afterReads s.handle t buf xs).1 s (afterReads s.handle t buf xs).2 := by
  induction xs generalizing t buf with
  | nil => simp [afterReads]
  | cons r xs ih =>
    obtain ⟨st, f⟩ := r
    obtain ⟨h1, h2⟩ := hdel
    obtain ⟨hst, hf⟩ := hxs (st, f) (List.mem_cons_self _ _)
    simp only at hst hf h1 h2
    subst hst
    have hrest : ∀ r ∈ xs, r.1 = canOK ∧ r.2.flag &&& 0xF9 ≠ 0 :=
      fun r' hr' => hxs r' (List.mem_cons_of_mem _ hr')
    have hlen : ((canOK, f) :: xs).length + fuel = (xs.length + fuel) + 1 := by
      simp [List.length_cons]; omega
    rw [hlen, readLoop, h1]
    simp only [afterReads]
    rw [if_neg (by decide), if_neg (by decide), if_neg (by simp), if_neg hf]
    exact ih hrest _ _ h2

theorem and_ext_pos_iff (n : Nat) : decide ((n &&& canMSG_EXT) > 0) = n.testBit 2 := by
  have h := Nat.and_two_pow n 2
  norm_num at h
  cases hb : n.testBit 2 <;> simp [canMSG_EXT, h, hb]

/-- The loop only adds to the history, starting with its first `canRead`. -/
theorem readLoop_trace (drv : Driver) (fuel : Nat) (t : Trace) (s : KvaserCan) (buf : CanFrame)
    (r : ReturnStatuses × KvaserCan × CanFrame × Trace)
    (h : readLoop drv fuel t s buf = some r) :
    ∃ es, r.2.2.2 = es ++
      DriverEvent.read s.handle (drv.canRead t s.handle buf).1 (drv.canRead t s.handle buf).2 ::
        t := by
  induction fuel generalizing t buf with
  | zero => simp [readLoop] at h
  | succ fuel ih =>
    rw [readLoop] at h
    split_ifs at h
    · exact ⟨[], by rw [← Option.some.inj h]; rfl⟩
    · exact ⟨[], by rw [← Option.some.inj h]; rfl⟩
    · exact ⟨[], by rw [← Option.some.inj h]; rfl⟩
    · exact ⟨[], by rw [← Option.some.inj h]; rfl⟩
    · obtain ⟨es, hes⟩ := ih _ _ h
      exact ⟨es ++ [DriverEvent.read s.handle
        (drv.canRead (DriverEvent.read s.handle (drv.canRead t s.handle buf).1
          (drv.canRead t s.handle buf).2 :: t) s.handle (drv.canRead t s.handle buf).2).1
        (drv.canRead (DriverEvent.read s.handle (drv.canRead t s.handle buf).1
          (drv.canRead t s.handle buf).2 :: t) s.handle (drv.canRead t s.handle buf).2).2],
        by rw [hes]; simp⟩

/-- The loop leaves the handle alone and can only clear `on_bus`. -/
theorem readLoop_session (drv : Driver) (fuel : Nat) (t : Trace) (s : KvaserCan) (buf : CanFrame)
    (r : ReturnStatuses × KvaserCan × CanFrame × Trace)
    (h : readLoop drv fuel t s buf = some r) :
    r.2.1 = s ∨ r.2.1 = { s with on_bus := false } := by
  induction fuel generalizing t buf with
  | zero => simp [readLoop] at h
  | succ fuel ih =>
    rw [readLoop] at h
    split_ifs at h
    · exact Or.inr (by rw [← Option.some.inj h])
    · exact Or.inl (by rw [← Option.some.inj h])
    · exact Or.inl (by rw [← Option.some.inj h])
    · exact Or.inl (by rw [← Option.some.inj h])
    · exact ih _ _ h

/-- A `read` that returns leaves the handle alone and can only clear `on_bus`. -/
theorem read_session (drv : Driver) (fuel : Nat) (t : Trace) (s : KvaserCan) (out : ReadOut)
    (r : ReturnStatuses × KvaserCan × ReadOut × Trace)
    (h : KvaserCan.read drv fuel t s out = some r) :
    r.2.1 = s ∨ r.2.1 = { s with on_bus := false } := by
  unfold KvaserCan.read at h
  split_ifs at h
  · exact Or.inl (by rw [← Option.some.inj h])
  · cases hl : readLoop drv fuel t s out.toFrame with
    | none => simp [hl] at h
    | some r1 =>
      obtain ⟨ret_val, s1, buf, t1⟩ := r1
      simp only [hl] at h
      rw [← Option.some.inj h]
      exact readLoop_session drv fuel t s out.toFrame _ hl

/-- More fuel does not change the result of a loop that ended. -/
theorem readLoop_fuel_succ (drv : Driver) (fuel : Nat) (t : Trace) (s : KvaserCan)
    (buf : CanFrame) (r : ReturnStatuses × KvaserCan × CanFrame × Trace)
    (h : readLoop drv fuel t s buf = some r) : readLoop drv (fuel + 1) t s buf = some r := by
  induction fuel generalizing t buf with
  | zero => simp [readLoop] at h
  | succ fuel ih =>
    rw [readLoop] at h
    rw [readLoop]
    split_ifs at h ⊢
    · exact h
    · exact h
    · exact h
    · exact h
    · exact ih _ _ h

theorem readLoop_fuel_add (drv : Driver) (fuel extra : Nat) (t : Trace) (s : KvaserCan)
    (buf : CanFrame) (r : ReturnStatuses × KvaserCan × CanFrame × Trace)
    (h : readLoop drv fuel t s buf = some r) : readLoop drv (fuel + extra) t s buf = some r := by
  induction extra with
  | zero => exact h
  | succ extra ih => exact readLoop_fuel_succ drv _ t s buf r ih

/-- When the driver's queue holds the events `evs` and then reports "no
message", the loop ends within `evs.length + 1` reads. -/
theorem readLoop_terminates (drv : Driver) (s : KvaserCan) (evs : List (Int × CanFrame))
    (b : CanFrame) (t : Trace) (buf : CanFrame)
    (hdel : Delivers drv s.handle t buf (evs ++ [(canERR_NOMSG, b)])) :
    ∃ r, readLoop drv (evs.length + 1) t s buf = some r ∧
      countReads t < countReads r.2.2.2 ∧
      countReads r.2.2.2 ≤ countReads t + (evs.length + 1) := by
  induction evs generalizing t buf with
  | nil =>
    obtain ⟨h1, -⟩ := hdel
    have hval : readLoop drv 1 t s buf =
        some (ReturnStatuses.NO_MESSAGES_RECEIVED, s, b,
          DriverEvent.read s.handle canERR_NOMSG b :: t) := by
      rw [readLoop, h1]
      simp only
      rw [if_neg (by decide)]
      simp
    exact ⟨_, hval, by simp [countReads], by simp [countReads]⟩
  | cons e evs ih =>
    obtain ⟨h1, h2⟩ := hdel
    obtain ⟨r, hr, hlo, hhi⟩ := ih _ _ h2
    simp only [List.length_cons]
    rw [readLoop, h1]
    simp only [countReads] at hlo hhi
    split_ifs
    · exact ⟨_, rfl, by simp [countReads], by simp [countReads]⟩
    · exact ⟨_, rfl, by simp [countReads], by simp [countReads]⟩
    · exact ⟨_, rfl, by simp [countReads], by simp [countReads]⟩
    · exact ⟨_, rfl, by simp [countReads], by simp [countReads]⟩
    · exact ⟨r, hr, by omega, by omega⟩

theorem rtr_in_ignore_mask (n : Nat) (h : n &&& canMSG_RTR ≠ 0) : n &&& 0xF9 ≠ 0 := by
  intro h0
  apply h
  have e : (0xF9 : Nat) &&& canMSG_RTR = canMSG_RTR := by decide
  rw [← e, ← Nat.land_assoc, h0]
  simp

/-! ## Lemmas on `open` -/

theorem openedChannels_append (es t : Trace)
    (hes : ∀ e ∈ es, ∀ c f h, e ≠ DriverEvent.openChannel c f h) :
    openedChannels (es ++ t) = openedChannels t := by
  induction es with
  | nil => rfl
  | cons e es ih =>
    have ih' := ih (fun e' he' => hes e' (List.mem_cons_of_mem _ he'))
    have he := hes e (List.mem_cons_self _ _)
    cases e <;> simp_all [openedChannels]

theorem scanStep_trace (drv : Driver) (hardware_id circuit_id : Int)
    (idx : Int) (t : Trace) (channel : Int) :
    ∃ es, (scanStep drv hardware_id circuit_id idx t channel).2 = es ++ t ∧
      ∀ e ∈ es, e.isChannelData = true := by
  unfold scanStep
  simp only
  split_ifs
  · exact ⟨[_, _], rfl, by simp [DriverEvent.isChannelData]⟩
  · exact ⟨[_, _], rfl, by simp [DriverEvent.isChannelData]⟩
  · exact ⟨[_, _], rfl, by simp [DriverEvent.isChannelData]⟩
  · exact ⟨[_], rfl, by simp [DriverEvent.isChannelData]⟩
  · exact ⟨[_], rfl, by simp [DriverEvent.isChannelData]⟩

/-- The resolution loop only issues `canGetChannelData` calls. -/
theorem scanChannels_trace (drv : Driver) (hardware_id circuit_id : Int) (n : Nat)
    (idx : Int) (t : Trace) (channel : Int) :
    ∃ es, (scanChannels drv hardware_id circuit_id n idx t channel).2 = es ++ t ∧
      ∀ e ∈ es, e.isChannelData = true := by
  induction n generalizing idx t channel with
  | zero => exact ⟨[], rfl, by simp⟩
  | succ n ih =>
    obtain ⟨es1, h1, h1a⟩ := scanStep_trace drv hardware_id circuit_id idx t channel
    obtain ⟨es2, h2, h2a⟩ := ih (idx + 1)
      (scanStep drv hardware_id circuit_id idx t channel).2
      (scanStep drv hardware_id circuit_id idx t channel).1
    refine ⟨es2 ++ es1, ?_, ?_⟩
    · rw [scanChannels, h2, h1, List.append_assoc]
    · intro e he
      rcases List.mem_append.1 he with he | he
      · exact h2a e he
      · exact h1a e he

theorem isBusConfig_of_isChannelData (e : DriverEvent) (h : e.isChannelData = true) :
    e.isBusConfig = false := by
  cases e <;> simp_all [DriverEvent.isChannelData, DriverEvent.isBusConfig]

theorem filter_isBusConfig_append (es t : Trace) (hes : ∀ e ∈ es, e.isBusConfig = false) :
    (es ++ t).filter DriverEvent.isBusConfig = t.filter DriverEvent.isBusConfig := by
  rw [List.filter_append]
  have : es.filter DriverEvent.isBusConfig = [] := by
    rw [List.filter_eq_nil_iff]
    intro e he
    simp [hes e he]
  rw [this, List.nil_append]

/-- The history after the resolution scan: only `canGetNumberOfChannels` and
`canGetChannelData` calls were added. -/
theorem resolveScan_trace (drv : Driver) (t : Trace) (hardware_id circuit_id : Int) :
    openedChannels (resolveScan drv t hardware_id circuit_id).2 = openedChannels t ∧
      (resolveScan drv t hardware_id circuit_id).2.filter DriverEvent.isBusConfig =
        t.filter DriverEvent.isBusConfig := by
  obtain ⟨es, h1, h2⟩ := scanChannels_trace drv hardware_id circuit_id
    (KvaserCanUtils.getChannelCount drv t).2.1.toNat 0
    (KvaserCanUtils.getChannelCount drv t).2.2 (-1)
  unfold resolveScan
  rw [h1]
  constructor
  · rw [openedChannels_append es _ (fun e he c f h heq => by
      have := h2 e he
      rw [heq] at this
      simp [DriverEvent.isChannelData] at this)]
    simp [KvaserCanUtils.getChannelCount, openedChannels]
  · rw [filter_isBusConfig_append es _ (fun e he => isBusConfig_of_isChannelData e (h2 e he))]
    simp [KvaserCanUtils.getChannelCount, DriverEvent.isBusConfig]

theorem freqOfBitrate_eq_none (bitrate : Int)
    (hb : bitrate ≠ 125000 ∧ bitrate ≠ 250000 ∧ bitrate ≠ 500000 ∧ bitrate ≠ 1000000) :
    freqOfBitrate bitrate = none := by
  simp [freqOfBitrate, hb.1, hb.2.1, hb.2.2.1, hb.2.2.2]

theorem scanStep_match (drv : Driver) (hardware_id circuit_id idx : Int) (t : Trace)
    (channel : Int) (h : IsMatch drv hardware_id circuit_id idx) :
    (scanStep drv hardware_id circuit_id idx t channel).1 = idx := by
  obtain ⟨h1, h2⟩ := h
  have a := h1 t
  have b := h2 (DriverEvent.getChannelData idx ChannelDataItem.CARD_SERIAL_NO
    (drv.canGetChannelData t idx ChannelDataItem.CARD_SERIAL_NO).1
    (drv.canGetChannelData t idx ChannelDataItem.CARD_SERIAL_NO).2 :: t)
  unfold SerialMatchesAt at a
  unfold CircuitMatchesAt at b
  unfold scanStep
  simp only
  rw [if_pos a.1, if_pos a.2, if_pos b.1, if_pos b.2]

theorem scanStep_nomatch (drv : Driver) (hardware_id circuit_id idx : Int) (t : Trace)
    (channel : Int) (h : IsNoMatch drv hardware_id circuit_id idx) :
    (scanStep drv hardware_id circuit_id idx t channel).1 = channel := by
  unfold scanStep
  simp only
  rcases h with h | h
  · have a := h t
    unfold SerialMatchesAt at a
    split_ifs <;> first | rfl | (exfalso; exact a ⟨by assumption, by assumption⟩)
  · have b := h (DriverEvent.getChannelData idx ChannelDataItem.CARD_SERIAL_NO
      (drv.canGetChannelData t idx ChannelDataItem.CARD_SERIAL_NO).1
      (drv.canGetChannelData t idx ChannelDataItem.CARD_SERIAL_NO).2 :: t)
    unfold CircuitMatchesAt at b
    split_ifs <;> first | rfl | (exfalso; exact b ⟨by assumption, by assumption⟩)

/-- Over a range of indices none of which satisfies both predicates, the loop
leaves `channel` as it was. -/
theorem scanChannels_nomatch (drv : Driver) (hardware_id circuit_id : Int) (n : Nat)
    (idx : Int) (t : Trace) (channel : Int)
    (h : ∀ j, idx ≤ j → j < idx + n → IsNoMatch drv hardware_id circuit_id j) :
    (scanChannels drv hardware_id circuit_id n idx t channel).1 = channel := by
  induction n generalizing idx t channel with
  | zero => rfl
  | succ n ih =>
    rw [scanChannels, ih, scanStep_nomatch]
    · exact h idx (le_refl _) (by push_cast; omega)
    · intro j hj1 hj2
      exact h j (by omega) (by push_cast; omega)

/-- Over a range of indices exactly one of which, `i`, satisfies both
predicates, the loop ends with `channel = i`. -/
theorem scanChannels_unique (drv : Driver) (hardware_id circuit_id : Int) (n : Nat)
    (idx : Int) (t : Trace) (channel : Int) (i : Int) (hi1 : idx ≤ i) (hi2 : i < idx + n)
    (hm : IsMatch drv hardware_id circuit_id i)
    (h : ∀ j, idx ≤ j → j < idx + n → j ≠ i → IsNoMatch drv hardware_id circuit_id j) :
    (scanChannels drv hardware_id circuit_id n idx t channel).1 = i := by
  induction n generalizing idx t channel with
  | zero => exfalso; simp at hi2; omega
  | succ n ih =>
    rw [scanChannels]
    by_cases hidx : idx = i
    · subst hidx
      rw [scanChannels_nomatch, scanStep_match _ _ _ _ _ _ hm]
      intro j hj1 hj2
      exact h j (by omega) (by push_cast; omega) (by omega)
    · apply ih
      · omega
      · push_cast at hi2; omega
      · intro j hj1 hj2 hj3
        exact h j (by omega) (by push_cast; omega) hj3

/-- Once the scan has resolved a channel, `open` issues exactly one
`canOpenChannel` call, on that channel, whatever happens afterwards. -/
theorem open_openedChannels (drv : Driver) (t : Trace) (s : KvaserCan)
    (hardware_id circuit_id bitrate : Int) (echo_on : Bool)
    (hs : s.on_bus = false)
    (hc : (KvaserCanUtils.getChannelCount drv t).1 = ReturnStatuses.OK)
    (hsc : (resolveScan drv t hardware_id circuit_id).1 ≠ -1) :
    openedChannels (KvaserCan.open drv t s hardware_id circuit_id bitrate echo_on).2.2 =
      (resolveScan drv t hardware_id circuit_id).1 :: openedChannels t := by
  obtain ⟨ho, -⟩ := resolveScan_trace drv t hardware_id circuit_id
  unfold resolveScan at ho hsc ⊢
  unfold KvaserCan.open
  simp only [hs, hc]
  cases hfb : freqOfBitrate bitrate with
  | none => simp only [hsc]; split_ifs <;> simp_all [openedChannels]
  | some freq =>
    cases echo_on <;> simp only [hsc] <;> split_ifs <;> simp_all [openedChannels]

/-- When the scan resolves no channel, `open` returns BAD_PARAM and leaves the
session as it was, without a `canOpenChannel` call. -/
theorem open_unresolved (drv : Driver) (t : Trace) (s : KvaserCan)
    (hardware_id circuit_id bitrate : Int) (echo_on : Bool)
    (hs : s.on_bus = false)
    (hc : (KvaserCanUtils.getChannelCount drv t).1 = ReturnStatuses.OK)
    (hsc : (resolveScan drv t hardware_id circuit_id).1 = -1) :
    KvaserCan.open drv t s hardware_id circuit_id bitrate echo_on =
      (ReturnStatuses.BAD_PARAM, s, (resolveScan drv t hardware_id circuit_id).2) := by
  unfold resolveScan at hsc ⊢
  unfold KvaserCan.open
  simp [hs, hc, hsc]

theorem getChannelCount_of_ok (drv : Driver) (t : Trace) (N : Int)
    (hN : drv.canGetNumberOfChannels t = (canOK, N)) :
    (KvaserCanUtils.getChannelCount drv t).1 = ReturnStatuses.OK ∧
      (KvaserCanUtils.getChannelCount drv t).2.1 = N := by
  simp [KvaserCanUtils.getChannelCount, hN, KvaserCanUtils.canlibStatToReturnStatus]

/-- From a session that is not on bus, `open` ends on bus exactly when it
returns OK. -/
theorem open_on_bus_iff (drv : Driver) (t : Trace) (s : KvaserCan)
    (hardware_id circuit_id bitrate : Int) (echo_on : Bool) (hs : s.on_bus = false) :
    (KvaserCan.open drv t s hardware_id circuit_id bitrate echo_on).2.1.on_bus = true ↔
      (KvaserCan.open drv t s hardware_id circuit_id bitrate echo_on).1 = ReturnStatuses.OK := by
  unfold KvaserCan.open
  simp only [hs]
  generalize KvaserCanUtils.getChannelCount drv t = c
  generalize scanChannels drv hardware_id circuit_id c.2.1.toNat 0 c.2.2 (-1) = sc
  generalize drv.canOpenChannel sc.2 sc.1 canOPEN_ACCEPT_VIRTUAL = h
  by_cases hc : c.1 = ReturnStatuses.OK
  · by_cases hsc : sc.1 = -1
    · simp [hc, hsc, hs]
    · by_cases hh : h < 0
      · simp [hc, hsc, hh]
      · cases hfb : freqOfBitrate bitrate with
        | none => simp [hc, hsc, hh]
        | some freq =>
          by_cases h4 : drv.canSetBusParams
              (DriverEvent.openChannel sc.1 canOPEN_ACCEPT_VIRTUAL h :: sc.2) h freq < 0
          · simp [hc, hsc, hh, h4]
          · cases echo_on <;> simp [hc, hsc, hh, h4] <;> split_ifs <;> simp
  · simp [hc, hs]

/-- On a session that is on bus, `open` does nothing. -/
theorem open_of_on_bus (drv : Driver) (t : Trace) (s : KvaserCan)
    (hardware_id circuit_id bitrate : Int) (echo_on : Bool) (hs : s.on_bus = true) :
    KvaserCan.open drv t s hardware_id circuit_id bitrate echo_on = (ReturnStatuses.OK, s, t) := by
  unfold KvaserCan.open
  simp [hs]

theorem and_bus_off_gt_one (n : Nat) (h : n &&& canSTAT_BUS_OFF ≠ 0) :
    n &&& canSTAT_BUS_OFF > 1 := by
  have h2 := Nat.and_two_pow n 1
  norm_num at h2
  simp only [canSTAT_BUS_OFF] at h ⊢
  cases hb : n.testBit 1 <;> simp [hb] at h2 <;> omega

/-- The scan ends on the largest index that satisfies both predicates. -/
theorem scanChannels_last (drv : Driver) (hardware_id circuit_id : Int) (n : Nat)
    (idx : Int) (t : Trace) (channel : Int) (i : Int) (hi1 : idx ≤ i) (hi2 : i < idx + n)
    (hm : IsMatch drv hardware_id circuit_id i)
    (h : ∀ j, i < j → j < idx + n → IsNoMatch drv hardware_id circuit_id j) :
    (scanChannels drv hardware_id circuit_id n idx t channel).1 = i := by
  induction n generalizing idx t channel with
  | zero => exfalso; simp at hi2; omega
  | succ n ih =>
    rw [scanChannels]
    by_cases hidx : idx = i
    · subst hidx
      rw [scanChannels_nomatch, scanStep_match _ _ _ _ _ _ hm]
      intro j hj1 hj2
      exact h j (by omega) (by push_cast; omega)
    · apply ih
      · omega
      · push_cast at hi2; omega
      · intro j hj1 hj2
        exact h j hj1 (by push_cast; omega)

theorem busParamFreqs_append (es t : Trace) (hes : ∀ e ∈ es, e.isChannelData = true) :
    busParamFreqs (es ++ t) = busParamFreqs t := by
  induction es with
  | nil => rfl
  | cons e es ih =>
    have ih' := ih (fun e' he' => hes e' (List.mem_cons_of_mem _ he'))
    have he := hes e (List.mem_cons_self _ _)
    cases e <;> simp_all [busParamFreqs, DriverEvent.isChannelData]

theorem resolveScan_busParamFreqs (drv : Driver) (t : Trace) (hardware_id circuit_id : Int) :
    busParamFreqs (resolveScan drv t hardware_id circuit_id).2 = busParamFreqs t := by
  obtain ⟨es, h1, h2⟩ := scanChannels_trace drv hardware_id circuit_id
    (KvaserCanUtils.getChannelCount drv t).2.1.toNat 0
    (KvaserCanUtils.getChannelCount drv t).2.2 (-1)
  unfold resolveScan
  rw [h1, busParamFreqs_append es _ h2]
  simp [KvaserCanUtils.getChannelCount, busParamFreqs]

/-- With a driver that resolves the pair and succeeds at the calls this `open`
issues (a non-negative handle, the bus parameters accepted, bus-on
successful), `open` with a bit rate the `switch` maps to `freq` returns OK
and configures the driver with `freq`. -/
theorem open_accepts (drv : Driver) (t : Trace) (s : KvaserCan)
    (hardware_id circuit_id bitrate : Int) (echo_on : Bool) (freq : Int)
    (hs : s.on_bus = false)
    (hc : (KvaserCanUtils.getChannelCount drv t).1 = ReturnStatuses.OK)
    (hres : (resolveScan drv t hardware_id circuit_id).1 ≠ -1)
    (hopen : 0 ≤ openedHandle drv t hardware_id circuit_id)
    (hfreq : freqOfBitrate bitrate = some freq)
    (hparams : 0 ≤ drv.canSetBusParams (historyAfterOpenChannel drv t hardware_id circuit_id)
      (openedHandle drv t hardware_id circuit_id) freq)
    (hbus : 0 ≤ drv.canBusOn (historyBeforeBusOn drv t hardware_id circuit_id freq echo_on)
      (openedHandle drv t hardware_id circuit_id)) :
    (KvaserCan.open drv t s hardware_id circuit_id bitrate echo_on).1 = ReturnStatuses.OK ∧
      busParamFreqs (KvaserCan.open drv t s hardware_id circuit_id bitrate echo_on).2.2 =
        freq :: busParamFreqs t := by
  have hb := resolveScan_busParamFreqs drv t hardware_id circuit_id
  have h1 : ¬ openedHandle drv t hardware_id circuit_id < 0 := by omega
  have h2 : ¬ drv.canSetBusParams (historyAfterOpenChannel drv t hardware_id circuit_id)
      (openedHandle drv t hardware_id circuit_id) freq < 0 := by omega
  have h3 : ¬ drv.canBusOn (historyBeforeBusOn drv t hardware_id circuit_id freq echo_on)
      (openedHandle drv t hardware_id circuit_id) < 0 := by omega
  unfold historyBeforeBusOn at h3
  unfold historyAfterOpenChannel at h2 h3
  unfold openedHandle at h1 h2 h3
  unfold resolveScan at hres hb h1 h2 h3
  unfold KvaserCan.open
  simp only [hs, hc, hfreq]
  cases echo_on
  · simp only [Bool.false_eq_true, if_false] at h3 ⊢
    simp [hres, h1, h2, h3, busParamFreqs, hb]
  · simp only [if_true] at h3 ⊢
    simp [hres, h1, h2, h3, busParamFreqs, hb]

/-! ## Lemmas on `getChannels` -/

set_option maxHeartbeats 4000000 in
theorem queryField_snd (drv : Driver) (i : Int) (item : ChannelDataItem)
    (assign : KvaserChannel → ChannelData → KvaserChannel) (chan : KvaserChannel) (h : Trace) :
    (queryField drv i item assign chan h).2 = asked drv i item h := rfl

/-- A query leaves alone every field that neither its assignment nor the
clearing of `all_data_valid` touches. -/
theorem queryField_proj {α : Type} (g : KvaserChannel → α) (drv : Driver) (i : Int)
    (item : ChannelDataItem) (assign : KvaserChannel → ChannelData → KvaserChannel)
    (chan : KvaserChannel) (h : Trace)
    (hassign : ∀ c d, g (assign c d) = g c)
    (hclear : ∀ c : KvaserChannel, g { c with all_data_valid := false } = g c) :
    g (queryField drv i item assign chan h).1 = g chan := by
  unfold queryField
  simp only
  split_ifs
  · exact hassign _ _
  · exact hclear _

/-- A query sets the field it assigns when the driver answers `canOK`, and
leaves it alone otherwise. -/
theorem queryField_assigned {α : Type} (g : KvaserChannel → α) (v : ChannelData → α)
    (drv : Driver) (i : Int)
    (item : ChannelDataItem) (assign : KvaserChannel → ChannelData → KvaserChannel)
    (chan : KvaserChannel) (h : Trace)
    (hassign : ∀ c d, g (assign c d) = v d)
    (hclear : ∀ c : KvaserChannel, g { c with all_data_valid := false } = g c) :
    g (queryField drv i item assign chan h).1 =
      if (drv.canGetChannelData h i item).1 = canOK then v (drv.canGetChannelData h i item).2
      else g chan := by
  unfold queryField
  simp only
  split_ifs
  · exact hassign _ _
  · exact hclear _

/-- A query keeps `all_data_valid` when the driver answers `canOK` and clears
it otherwise. -/
theorem queryField_valid (drv : Driver) (i : Int)
    (item : ChannelDataItem) (assign : KvaserChannel → ChannelData → KvaserChannel)
    (chan : KvaserChannel) (h : Trace)
    (hassign : ∀ c d, (assign c d).all_data_valid = c.all_data_valid) :
    ((queryField drv i item assign chan h).1.all_data_valid = true ↔
      chan.all_data_valid = true ∧ (drv.canGetChannelData h i item).1 = canOK) := by
  unfold queryField
  simp only
  split_ifs with hok
  · simp [hassign, hok]
  · simp [hok]

theorem getChannelsStep_channel_no (drv : Driver) (chan0 : KvaserChannel) (i : Int)
    (t : Trace) : (getChannelsStep drv chan0 i t).1.channel_no = i := by
  unfold getChannelsStep
  simp only [queryField_snd]
  iterate 6
    refine (queryField_proj KvaserChannel.channel_no _ _ _ _ _ _ ?_ ?_).trans ?_
    · intro c d; rfl
    · intro c; rfl
  rfl

theorem getChannelsStep_valid (drv : Driver) (chan0 : KvaserChannel) (i : Int) (t : Trace) :
    ((getChannelsStep drv chan0 i t).1.all_data_valid = true ↔
      chan0.all_data_valid = true ∧ ∀ item, (channelReply drv i t item).1 = canOK) := by
  have hall : (∀ item, (channelReply drv i t item).1 = canOK) ↔
      ((channelReply drv i t ChannelDataItem.CARD_SERIAL_NO).1 = canOK ∧
        (channelReply drv i t ChannelDataItem.CARD_NUMBER).1 = canOK ∧
        (channelReply drv i t ChannelDataItem.CHAN_NO_ON_CARD).1 = canOK ∧
        (channelReply drv i t ChannelDataItem.CARD_TYPE).1 = canOK ∧
        (channelReply drv i t ChannelDataItem.CARD_FIRMWARE_REV).1 = canOK ∧
        (channelReply drv i t ChannelDataItem.MAX_BITRATE).1 = canOK) := by
    constructor
    · intro h
      exact ⟨h _, h _, h _, h _, h _, h _⟩
    · rintro ⟨h1, h2, h3, h4, h5, h6⟩ item
      cases item <;> assumption
  rw [hall]
  unfold getChannelsStep channelReply queryHistory
  simp only [queryField_snd]
  refine Iff.trans (queryField_valid _ _ _ _ _ _ ?_) ?_
  · intro c d; rfl
  refine Iff.trans (and_congr_left' (queryField_valid _ _ _ _ _ _ ?_)) ?_
  · intro c d; rfl
  refine Iff.trans (and_congr_left' (and_congr_left' (queryField_valid _ _ _ _ _ _ ?_))) ?_
  · intro c d; rfl
  refine Iff.trans (and_congr_left' (and_congr_left' (and_congr_left' (queryField_valid _ _ _ _ _ _ ?_)))) ?_
  · intro c d; rfl
  refine Iff.trans (and_congr_left' (and_congr_left' (and_congr_left' (and_congr_left' (queryField_valid _ _ _ _ _ _ ?_))))) ?_
  · intro c d; rfl
  refine Iff.trans (and_congr_left' (and_congr_left' (and_congr_left' (and_congr_left' (and_congr_left' (queryField_valid _ _ _ _ _ _ ?_)))))) ?_
  · intro c d; rfl
  simp only [and_assoc]

theorem getChannelsStep_serial_no (drv : Driver) (chan0 : KvaserChannel) (i : Int) (t : Trace) :
    (getChannelsStep drv chan0 i t).1.serial_no =
      (if (channelReply drv i t ChannelDataItem.CARD_SERIAL_NO).1 = canOK
        then ChannelData.toUInt64 (channelReply drv i t ChannelDataItem.CARD_SERIAL_NO).2
        else chan0.serial_no) := by
  unfold getChannelsStep channelReply queryHistory
  simp only [queryField_snd]
  iterate 5
    refine (queryField_proj KvaserChannel.serial_no _ _ _ _ _ _ ?_ ?_).trans ?_
    · intro c d; rfl
    · intro c; rfl
  refine (queryField_assigned KvaserChannel.serial_no (ChannelData.toUInt64) _ _ _ _ _ _ ?_ ?_).trans ?_
  · intro c d; rfl
  · intro c; rfl
  split_ifs
  · rfl
  · rfl

theorem getChannelsStep_card_no (drv : Driver) (chan0 : KvaserChannel) (i : Int) (t : Trace) :
    (getChannelsStep drv chan0 i t).1.card_no =
      (if (channelReply drv i t ChannelDataItem.CARD_NUMBER).1 = canOK
        then ChannelData.toUInt32 (channelReply drv i t ChannelDataItem.CARD_NUMBER).2
        else chan0.card_no) := by
  unfold getChannelsStep channelReply queryHistory
  simp only [queryField_snd]
  iterate 4
    refine (queryField_proj KvaserChannel.card_no _ _ _ _ _ _ ?_ ?_).trans ?_
    · intro c d; rfl
    · intro c; rfl
  refine (queryField_assigned KvaserChannel.card_no (ChannelData.toUInt32) _ _ _ _ _ _ ?_ ?_).trans ?_
  · intro c d; rfl
  · intro c; rfl
  split_ifs
  · rfl
  · iterate 1
      refine (queryField_proj KvaserChannel.card_no _ _ _ _ _ _ ?_ ?_).trans ?_
      · intro c d; rfl
      · intro c; rfl
    rfl

theorem getChannelsStep_channel_no_on_card (drv : Driver) (chan0 : KvaserChannel) (i : Int) (t : Trace) :
    (getChannelsStep drv chan0 i t).1.channel_no_on_card =
      (if (channelReply drv i t ChannelDataItem.CHAN_NO_ON_CARD).1 = canOK
        then ChannelData.toUInt32 (channelReply drv i t ChannelDataItem.CHAN_NO_ON_CARD).2
        else chan0.channel_no_on_card) := by
  unfold getChannelsStep channelReply queryHistory
  simp only [queryField_snd]
  iterate 3
    refine (queryField_proj KvaserChannel.channel_no_on_card _ _ _ _ _ _ ?_ ?_).trans ?_
    · intro c d; rfl
    · intro c; rfl
  refine (queryField_assigned KvaserChannel.channel_no_on_card (ChannelData.toUInt32) _ _ _ _ _ _ ?_ ?_).trans ?_
  · intro c d; rfl
  · intro c; rfl
  split_ifs
  · rfl
  · iterate 2
      refine (queryField_proj KvaserChannel.channel_no_on_card _ _ _ _ _ _ ?_ ?_).trans ?_
      · intro c d; rfl
      · intro c; rfl
    rfl

theorem getChannelsStep_hw_type (drv : Driver) (chan0 : KvaserChannel) (i : Int) (t : Trace) :
    (getChannelsStep drv chan0 i t).1.hw_type =
      (if (channelReply drv i t ChannelDataItem.CARD_TYPE).1 = canOK
        then ChannelData.toUInt32 (channelReply drv i t ChannelDataItem.CARD_TYPE).2
        else chan0.hw_type) := by
  unfold getChannelsStep channelReply queryHistory
  simp only [queryField_snd]
  iterate 2
    refine (queryField_proj KvaserChannel.hw_type _ _ _ _ _ _ ?_ ?_).trans ?_
    · intro c d; rfl
    · intro c; rfl
  refine (queryField_assigned KvaserChannel.hw_type (ChannelData.toUInt32) _ _ _ _ _ _ ?_ ?_).trans ?_
  · intro c d; rfl
  · intro c; rfl
  split_ifs
  · rfl
  · iterate 3
      refine (queryField_proj KvaserChannel.hw_type _ _ _ _ _ _ ?_ ?_).trans ?_
      · intro c d; rfl
      · intro c; rfl
    rfl

theorem getChannelsStep_firmware_rev_maj (drv : Driver) (chan0 : KvaserChannel) (i : Int) (t : Trace) :
    (getChannelsStep drv chan0 i t).1.firmware_rev_maj =
      (if (channelReply drv i t ChannelDataItem.CARD_FIRMWARE_REV).1 = canOK
        then (channelReply drv i t ChannelDataItem.CARD_FIRMWARE_REV).2.toUInt16 0
        else chan0.firmware_rev_maj) := by
  unfold getChannelsStep channelReply queryHistory
  simp only [queryField_snd]
  iterate 1
    refine (queryField_proj KvaserChannel.firmware_rev_maj _ _ _ _ _ _ ?_ ?_).trans ?_
    · intro c d; rfl
    · intro c; rfl
  refine (queryField_assigned KvaserChannel.firmware_rev_maj (fun d => ChannelData.toUInt16 d 0) _ _ _ _ _ _ ?_ ?_).trans ?_
  · intro c d; rfl
  · intro c; rfl
  split_ifs
  · rfl
  · iterate 4
      refine (queryField_proj KvaserChannel.firmware_rev_maj _ _ _ _ _ _ ?_ ?_).trans ?_
      · intro c d; rfl
      · intro c; rfl
    rfl

theorem getChannelsStep_firmware_rev_min (drv : Driver) (chan0 : KvaserChannel) (i : Int) (t : Trace) :
    (getChannelsStep drv chan0 i t).1.firmware_rev_min =
      (if (channelReply drv i t ChannelDataItem.CARD_FIRMWARE_REV).1 = canOK
        then (channelReply drv i t ChannelDataItem.CARD_FIRMWARE_REV).2.toUInt16 1
        else chan0.firmware_rev_min) := by
  unfold getChannelsStep channelReply queryHistory
  simp only [queryField_snd]
  iterate 1
    refine (queryField_proj KvaserChannel.firmware_rev_min _ _ _ _ _ _ ?_ ?_).trans ?_
    · intro c d; rfl
    · intro c; rfl
  refine (queryField_assigned KvaserChannel.firmware_rev_min (fun d => ChannelData.toUInt16 d 1) _ _ _ _ _ _ ?_ ?_).trans ?_
  · intro c d; rfl
  · intro c; rfl
  split_ifs
  · rfl
  · iterate 4
      refine (queryField_proj KvaserChannel.firmware_rev_min _ _ _ _ _ _ ?_ ?_).trans ?_
      · intro c d; rfl
      · intro c; rfl
    rfl

theorem getChannelsStep_firmware_rev_rel (drv : Driver) (chan0 : KvaserChannel) (i : Int) (t : Trace) :
    (getChannelsStep drv chan0 i t).1.firmware_rev_rel =
      (if (channelReply drv i t ChannelDataItem.CARD_FIRMWARE_REV).1 = canOK
        then (channelReply drv i t ChannelDataItem.CARD_FIRMWARE_REV).2.toUInt16 2
        else chan0.firmware_rev_rel) := by
  unfold getChannelsStep channelReply queryHistory
  simp only [queryField_snd]
  iterate 1
    refine (queryField_proj KvaserChannel.firmware_rev_rel _ _ _ _ _ _ ?_ ?_).trans ?_
    · intro c d; rfl
    · intro c; rfl
  refine (queryField_assigned KvaserChannel.firmware_rev_rel (fun d => ChannelData.toUInt16 d 2) _ _ _ _ _ _ ?_ ?_).trans ?_
  · intro c d; rfl
  · intro c; rfl
  split_ifs
  · rfl
  · iterate 4
      refine (queryField_proj KvaserChannel.firmware_rev_rel _ _ _ _ _ _ ?_ ?_).trans ?_
      · intro c d; rfl
      · intro c; rfl
    rfl

theorem getChannelsStep_firmware_rev_bld (drv : Driver) (chan0 : KvaserChannel) (i : Int) (t : Trace) :
    (getChannelsStep drv chan0 i t).1.firmware_rev_bld =
      (if (channelReply drv i t ChannelDataItem.CARD_FIRMWARE_REV).1 = canOK
        then (channelReply drv i t ChannelDataItem.CARD_FIRMWARE_REV).2.toUInt16 3
        else chan0.firmware_rev_bld) := by
  unfold getChannelsStep channelReply queryHistory
  simp only [queryField_snd]
  iterate 1
    refine (queryField_proj KvaserChannel.firmware_rev_bld _ _ _ _ _ _ ?_ ?_).trans ?_
    · intro c d; rfl
    · intro c; rfl
  refine (queryField_assigned KvaserChannel.firmware_rev_bld (fun d => ChannelData.toUInt16 d 3) _ _ _ _ _ _ ?_ ?_).trans ?_
  · intro c d; rfl
  · intro c; rfl
  split_ifs
  · rfl
  · iterate 4
      refine (queryField_proj KvaserChannel.firmware_rev_bld _ _ _ _ _ _ ?_ ?_).trans ?_
      · intro c d; rfl
      · intro c; rfl
    rfl

theorem getChannelsStep_max_bitrate (drv : Driver) (chan0 : KvaserChannel) (i : Int) (t : Trace) :
    (getChannelsStep drv chan0 i t).1.max_bitrate =
      (if (channelReply drv i t ChannelDataItem.MAX_BITRATE).1 = canOK
        then ChannelData.toUInt32 (channelReply drv i t ChannelDataItem.MAX_BITRATE).2
        else chan0.max_bitrate) := by
  unfold getChannelsStep channelReply queryHistory
  simp only [queryField_snd]
  refine (queryField_assigned KvaserChannel.max_bitrate (ChannelData.toUInt32) _ _ _ _ _ _ ?_ ?_).trans ?_
  · intro c d; rfl
  · intro c; rfl
  split_ifs
  · rfl
  · iterate 5
      refine (queryField_proj KvaserChannel.max_bitrate _ _ _ _ _ _ ?_ ?_).trans ?_
      · intro c d; rfl
      · intro c; rfl
    rfl

theorem getChannelsLoop_append (drv : Driver) (chan0 : KvaserChannel) (n : Nat) (i : Int)
    (t : Trace) (channels : List KvaserChannel) :
    getChannelsLoop drv chan0 n i t channels =
      (channels ++ (getChannelsLoop drv chan0 n i t []).1,
        (getChannelsLoop drv chan0 n i t []).2) := by
  induction n generalizing i t channels with
  | zero => simp [getChannelsLoop]
  | succ n ih =>
    rw [getChannelsLoop, ih, getChannelsLoop]
    rw [ih (i + 1) _ ([] ++ _)]
    simp

theorem getChannelsLoop_succ (drv : Driver) (chan0 : KvaserChannel) (n : Nat) (i : Int)
    (t : Trace) :
    (getChannelsLoop drv chan0 (n + 1) i t []).1 =
      (getChannelsStep drv chan0 i t).1 ::
        (getChannelsLoop drv chan0 n (i + 1) (getChannelsStep drv chan0 i t).2 []).1 := by
  rw [getChannelsLoop, getChannelsLoop_append]
  simp

theorem getChannelsLoop_length (drv : Driver) (chan0 : KvaserChannel) (n : Nat) (i : Int)
    (t : Trace) : (getChannelsLoop drv chan0 n i t []).1.length = n := by
  induction n generalizing i t with
  | zero => simp [getChannelsLoop]
  | succ n ih => rw [getChannelsLoop_succ, List.length_cons, ih]

theorem getChannelsLoop_get (drv : Driver) (chan0 : KvaserChannel) (n : Nat) (i : Int)
    (t : Trace) (k : Nat) (hk : k < n) :
    (getChannelsLoop drv chan0 n i t []).1[k]? =
      some (getChannelsStep drv chan0 (i + k) (getChannelsHistory drv chan0 k i t)).1 := by
  induction n generalizing i t k with
  | zero => omega
  | succ n ih =>
    rw [getChannelsLoop_succ]
    cases k with
    | zero => simp [getChannelsHistory]
    | succ k =>
      rw [List.getElem?_cons_succ, ih _ _ k (by omega), getChannelsHistory]
      have : i + 1 + (k : Int) = i + ((k + 1 : Nat) : Int) := by push_cast; omega
      rw [this]

theorem getChannels_in_range (drv : Driver) (chan0 : KvaserChannel) (t : Trace) (N : Int)
    (hN : drv.canGetNumberOfChannels t = (canOK, N)) (h0 : 0 ≤ N) (h300 : N < 300) :
    KvaserCanUtils.getChannels drv chan0 t =
      getChannelsLoop drv chan0 N.toNat 0 (DriverEvent.getNumberOfChannels canOK N :: t) [] := by
  obtain ⟨hc, hn⟩ := getChannelCount_of_ok drv t N hN
  have ht : (KvaserCanUtils.getChannelCount drv t).2.2 =
      DriverEvent.getNumberOfChannels canOK N :: t := by
    simp [KvaserCanUtils.getChannelCount, hN]
  have hcond : (KvaserCanUtils.getChannelCount drv t).1 = ReturnStatuses.OK ∧
      (KvaserCanUtils.getChannelCount drv t).2.1 > -1 ∧
      (KvaserCanUtils.getChannelCount drv t).2.1 < 300 := ⟨hc, by omega, by omega⟩
  unfold KvaserCanUtils.getChannels
  simp only
  rw [if_pos hcond, hn, ht]

theorem getChannels_out_of_range (drv : Driver) (chan0 : KvaserChannel) (t : Trace) (N : Int)
    (hN : drv.canGetNumberOfChannels t = (canOK, N)) (hout : N < 0 ∨ 300 ≤ N) :
    KvaserCanUtils.getChannels drv chan0 t =
      ([], DriverEvent.getNumberOfChannels canOK N :: t) := by
  obtain ⟨hc, hn⟩ := getChannelCount_of_ok drv t N hN
  have ht : (KvaserCanUtils.getChannelCount drv t).2.2 =
      DriverEvent.getNumberOfChannels canOK N :: t := by
    simp [KvaserCanUtils.getChannelCount, hN]
  have hcond : ¬ ((KvaserCanUtils.getChannelCount drv t).1 = ReturnStatuses.OK ∧
      (KvaserCanUtils.getChannelCount drv t).2.1 > -1 ∧
      (KvaserCanUtils.getChannelCount drv t).2.1 < 300) := by
    rw [hn]; omega
  unfold KvaserCanUtils.getChannels
  simp only
  rw [if_neg hcond, ht]

/-! ## The session invariant, call by call -/

/-- The invariant of the session: on bus only with a non-negative handle. -/
theorem open_preserves (drv : Driver) (t : Trace) (s : KvaserCan)
    (hardware_id circuit_id bitrate : Int) (echo_on : Bool)
    (hinv : s.on_bus = true → 0 ≤ s.handle) :
    (KvaserCan.open drv t s hardware_id circuit_id bitrate echo_on).2.1.on_bus = true →
      0 ≤ (KvaserCan.open drv t s hardware_id circuit_id bitrate echo_on).2.1.handle := by
  cases hs : s.on_bus with
  | true =>
    rw [open_of_on_bus drv t s _ _ _ _ hs]
    exact hinv
  | false =>
    unfold KvaserCan.open
    simp only [hs]
    generalize KvaserCanUtils.getChannelCount drv t = c
    generalize scanChannels drv hardware_id circuit_id c.2.1.toNat 0 c.2.2 (-1) = sc
    generalize drv.canOpenChannel sc.2 sc.1 canOPEN_ACCEPT_VIRTUAL = h
    by_cases hc : c.1 = ReturnStatuses.OK
    · by_cases hsc : sc.1 = -1
      · simp [hc, hsc, hs]
      · by_cases hh : h < 0
        · simp [hc, hsc, hh]
        · cases hfb : freqOfBitrate bitrate with
          | none => simp [hc, hsc, hh]
          | some freq =>
            have hh' : 0 ≤ h := by omega
            by_cases h4 : drv.canSetBusParams
                (DriverEvent.openChannel sc.1 canOPEN_ACCEPT_VIRTUAL h :: sc.2) h freq < 0
            · simp [hc, hsc, hh, h4]
            · cases echo_on <;> simp [hc, hsc, hh, h4] <;> split_ifs <;> simp [hh']
    · simp [hc, hs]

theorem close_preserves (drv : Driver) (t : Trace) (s : KvaserCan)
    (hinv : s.on_bus = true → 0 ≤ s.handle) :
    (KvaserCan.close drv t s).2.1.on_bus = true → 0 ≤ (KvaserCan.close drv t s).2.1.handle := by
  unfold KvaserCan.close
  simp only
  split_ifs
  · exact hinv
  · exact hinv
  · simp

theorem isOpen_preserves (drv : Driver) (t : Trace) (s : KvaserCan)
    (hinv : s.on_bus = true → 0 ≤ s.handle) :
    (KvaserCan.isOpen drv t s).2.1.on_bus = true →
      0 ≤ (KvaserCan.isOpen drv t s).2.1.handle := by
  unfold KvaserCan.isOpen
  simp only
  split_ifs
  · exact hinv
  · exact hinv
  · exact close_preserves drv _ s hinv
  · exact hinv
  · exact hinv

theorem write_preserves (drv : Driver) (t : Trace) (s : KvaserCan)
    (id : Int) (msg : List Nat) (size : Nat) (extended : Bool)
    (hinv : s.on_bus = true → 0 ≤ s.handle) :
    (KvaserCan.write drv t s id msg size extended).2.1.on_bus = true →
      0 ≤ (KvaserCan.write drv t s id msg size extended).2.1.handle := by
  unfold KvaserCan.write
  split_ifs <;> exact hinv

theorem step_preserves (drv : Driver) (w w1 : KvaserCan × Trace) (c : Call)
    (hstep : step drv w c = some w1)
    (hinv : w.1.on_bus = true → 0 ≤ w.1.handle) :
    w1.1.on_bus = true → 0 ≤ w1.1.handle := by
  cases c with
  | «open» hardware_id circuit_id bitrate echo_on =>
    simp only [step, Option.some.injEq] at hstep
    rw [← hstep]
    exact open_preserves drv w.2 w.1 _ _ _ _ hinv
  | isOpen =>
    simp only [step, Option.some.injEq] at hstep
    rw [← hstep]
    exact isOpen_preserves drv w.2 w.1 hinv
  | close =>
    simp only [step, Option.some.injEq] at hstep
    rw [← hstep]
    exact close_preserves drv w.2 w.1 hinv
  | read fuel out =>
    simp only [step] at hstep
    cases hr : KvaserCan.read drv fuel w.2 w.1 out with
    | none => simp [hr] at hstep
    | some r =>
      simp only [hr, Option.some.injEq] at hstep
      rw [← hstep]
      rcases read_session drv fuel w.2 w.1 out r hr with h | h
      · simp only [h]; exact hinv
      · simp [h]
  | write id msg size extended =>
    simp only [step, Option.some.injEq] at hstep
    rw [← hstep]
    exact write_preserves drv w.2 w.1 _ _ _ _ hinv

theorem run_preserves (drv : Driver) (calls : List Call) (w w1 : KvaserCan × Trace)
    (hrun : run drv w calls = some w1)
    (hinv : w.1.on_bus = true → 0 ≤ w.1.handle) :
    w1.1.on_bus = true → 0 ≤ w1.1.handle := by
  induction calls generalizing w with
  | nil =>
    simp only [run, Option.some.injEq] at hrun
    rw [← hrun]
    exact hinv
  | cons c cs ih =>
    simp only [run] at hrun
    cases hs : step drv w c with
    | none => simp [hs] at hrun
    | some w2 =>
      simp only [hs] at hrun
      exact ih w2 hrun (step_preserves drv w w2 c hs hinv)

/-! ## Claims -/

/-- C1. On a session whose handle is non-negative, when the driver's next
answers to `canRead` are `k` events of status OK whose flag meets the mask
`0xF9`, followed by one event `d` of status OK whose flag does not, `read`
(given fuel for `k + 1` iterations) returns OK, has made exactly those `k + 1`
driver reads and no other driver call, reports the identifier, payload, size
and timestamp of `d`, leaves the session as it was, and sets `extended` to bit
2 (`canMSG_EXT = 0x4`) of the flag of `d`. -/
theorem read_returns_first_data_frame (drv : Driver) (t : Trace) (s : KvaserCan)
    (out : ReadOut) (acks : List CanFrame) (d : CanFrame) (fuel : Nat)
    (hh : 0 ≤ s.handle)
    (hacks : ∀ a ∈ acks, a.flag &&& 0xF9 ≠ 0)
    (hd : d.flag &&& 0xF9 = 0)
    (hdel : Delivers drv s.handle t out.toFrame
      (acks.map (fun a => (canOK, a)) ++ [(canOK, d)]))
    (hfuel : acks.length + 1 ≤ fuel) :
    KvaserCan.read drv fuel t s out =
      some (ReturnStatuses.OK, s,
        { id := d.id, msg := d.msg, size := d.size, extended := d.flag.testBit 2,
          time := d.time },
        DriverEvent.read s.handle canOK d ::
          ((acks.map fun a => DriverEvent.read s.handle canOK a).reverse ++ t)) := by
  obtain ⟨extra, rfl⟩ : ∃ extra, fuel = (acks.map (fun a => (canOK, a))).length + (extra + 1) :=
    ⟨fuel - (acks.length + 1), by simp; omega⟩
  rw [delivers_append] at hdel
  obtain ⟨hdel1, hdel2, -⟩ := hdel
  have hxs : ∀ r ∈ acks.map (fun a => (canOK, a)), r.1 = canOK ∧ r.2.flag &&& 0xF9 ≠ 0 := by
    intro r hr
    obtain ⟨a, ha, rfl⟩ := List.mem_map.1 hr
    exact ⟨rfl, hacks a ha⟩
  have hskip := readLoop_skip drv s _ hxs t out.toFrame hdel1 (extra + 1)
  have htr := afterReads_trace s.handle (acks.map (fun a => (canOK, a))) t out.toFrame
  simp only [List.map_map, Function.comp_def] at htr
  unfold KvaserCan.read
  rw [if_neg (by omega), hskip, readLoop, hdel2, htr]
  simp only
  rw [if_neg (by decide), if_neg (by decide), if_neg (by simp), if_pos hd]
  simp [and_ext_pos_iff]

/-- C1, at a concrete input: the queue [ack, ack, data(id = 0x123, standard)]
yields OK, identifier `0x123` and `extended = false`. -/
theorem read_returns_first_data_frame_witness :
    KvaserCan.read ackAckDataDriver 3 [] { handle := 0, on_bus := true }
        { id := 0, msg := [], size := 0, extended := true, time := 0 } =
      some (ReturnStatuses.OK, { handle := 0, on_bus := true },
        { id := 0x123, msg := [0xDE, 0xAD], size := 2, extended := false, time := 30 },
        [DriverEvent.read 0 canOK dataFrame123, DriverEvent.read 0 canOK ackFrame,
          DriverEvent.read 0 canOK ackFrame]) :=
  read_returns_first_data_frame ackAckDataDriver [] { handle := 0, on_bus := true }
    { id := 0, msg := [], size := 0, extended := true, time := 0 }
    [ackFrame, ackFrame] dataFrame123 3 (by decide) (by decide) (by decide)
    (by simp [Delivers, ackAckDataDriver, countReads]) (by decide)

/-- C2, as stated, fails: on the constructed session, with a driver that
resolves the pair (1234, 0) and hands out handle 0, `open` with the positive
bit rate 1 returns BAD_PARAM, but only after a `canOpenChannel` call was
issued, and the handle afterwards is 0, not the sentinel. -/
theorem open_bad_bitrate_opens_handle :
    (KvaserCan.open cardDriver [] { handle := -1, on_bus := false } 1234 0 1 true).1 =
        ReturnStatuses.BAD_PARAM ∧
      (KvaserCan.open cardDriver [] { handle := -1, on_bus := false } 1234 0 1 true).2.1.handle
        = 0 ∧
      (KvaserCan.open cardDriver [] { handle := -1, on_bus := false } 1234 0 1 true).2.1.handle
        ≠ -1 ∧
      openedChannels
        (KvaserCan.open cardDriver [] { handle := -1, on_bus := false } 1234 0 1 true).2.2
        = [0] := by
  decide

/-- C2, amended.  For every session that is not on bus, every pair, every
driver behaviour and every bit rate that is not 125000, 250000, 500000 or
1000000: `open` never returns OK, leaves `on_bus` false and issues none of the
calls that follow the bit-rate check (`canSetBusParams`, `canIoCtl`,
`canSetBusOutputControl`, `canBusOn`).  The bit rate is examined only after
the handle was opened: when the count query succeeds and the scan resolves a
channel, exactly one `canOpenChannel` call is issued, on that channel, and the
handle afterwards is whatever the driver returned.  If that value is
non-negative the result is BAD_PARAM and the handle is not the sentinel; if
it is negative (the sentinel `-1` included) the result is INIT_FAILED and the
handle is that negative value.  When the scan resolves no channel the result
is BAD_PARAM with no `canOpenChannel` call and the session unchanged; when
the count query fails the result is the translated count status. -/
theorem open_unaccepted_bitrate (drv : Driver) (t : Trace) (s : KvaserCan)
    (hardware_id circuit_id bitrate : Int) (echo_on : Bool)
    (hs : s.on_bus = false)
    (hb : bitrate ≠ 125000 ∧ bitrate ≠ 250000 ∧ bitrate ≠ 500000 ∧ bitrate ≠ 1000000) :
    ((KvaserCan.open drv t s hardware_id circuit_id bitrate echo_on).1 ≠ ReturnStatuses.OK ∧
      (KvaserCan.open drv t s hardware_id circuit_id bitrate echo_on).2.1.on_bus = false ∧
      (KvaserCan.open drv t s hardware_id circuit_id bitrate echo_on).2.2.filter
          DriverEvent.isBusConfig = t.filter DriverEvent.isBusConfig) ∧
    ((KvaserCanUtils.getChannelCount drv t).1 = ReturnStatuses.OK →
      (resolveScan drv t hardware_id circuit_id).1 ≠ -1 →
      (KvaserCan.open drv t s hardware_id circuit_id bitrate echo_on).2.2 =
          DriverEvent.openChannel (resolveScan drv t hardware_id circuit_id).1
            canOPEN_ACCEPT_VIRTUAL
            (drv.canOpenChannel (resolveScan drv t hardware_id circuit_id).2
              (resolveScan drv t hardware_id circuit_id).1 canOPEN_ACCEPT_VIRTUAL) ::
            (resolveScan drv t hardware_id circuit_id).2 ∧
        openedChannels (KvaserCan.open drv t s hardware_id circuit_id bitrate echo_on).2.2 =
          (resolveScan drv t hardware_id circuit_id).1 :: openedChannels t ∧
        (KvaserCan.open drv t s hardware_id circuit_id bitrate echo_on).2.1.handle =
          drv.canOpenChannel (resolveScan drv t hardware_id circuit_id).2
            (resolveScan drv t hardware_id circuit_id).1 canOPEN_ACCEPT_VIRTUAL ∧
        ((KvaserCan.open drv t s hardware_id circuit_id bitrate echo_on).1 =
          if drv.canOpenChannel (resolveScan drv t hardware_id circuit_id).2
              (resolveScan drv t hardware_id circuit_id).1 canOPEN_ACCEPT_VIRTUAL < 0
          then ReturnStatuses.INIT_FAILED else ReturnStatuses.BAD_PARAM) ∧
        (0 ≤ drv.canOpenChannel (resolveScan drv t hardware_id circuit_id).2
            (resolveScan drv t hardware_id circuit_id).1 canOPEN_ACCEPT_VIRTUAL →
          (KvaserCan.open drv t s hardware_id circuit_id bitrate echo_on).1 =
              ReturnStatuses.BAD_PARAM ∧
            0 ≤ (KvaserCan.open drv t s hardware_id circuit_id bitrate echo_on).2.1.handle ∧
            (KvaserCan.open drv t s hardware_id circuit_id bitrate echo_on).2.1.handle ≠ -1) ∧
        (drv.canOpenChannel (resolveScan drv t hardware_id circuit_id).2
            (resolveScan drv t hardware_id circuit_id).1 canOPEN_ACCEPT_VIRTUAL < 0 →
          (KvaserCan.open drv t s hardware_id circuit_id bitrate echo_on).1 =
              ReturnStatuses.INIT_FAILED ∧
            (KvaserCan.open drv t s hardware_id circuit_id bitrate echo_on).2.1.handle < 0)) ∧
    ((KvaserCanUtils.getChannelCount drv t).1 = ReturnStatuses.OK →
      (resolveScan drv t hardware_id circuit_id).1 = -1 →
      (KvaserCan.open drv t s hardware_id circuit_id bitrate echo_on).1 =
          ReturnStatuses.BAD_PARAM ∧
        (KvaserCan.open drv t s hardware_id circuit_id bitrate echo_on).2.1 = s ∧
        openedChannels (KvaserCan.open drv t s hardware_id circuit_id bitrate echo_on).2.2 =
          openedChannels t) ∧
    ((KvaserCanUtils.getChannelCount drv t).1 ≠ ReturnStatuses.OK →
      KvaserCan.open drv t s hardware_id circuit_id bitrate echo_on =
        ((KvaserCanUtils.getChannelCount drv t).1, s,
          (KvaserCanUtils.getChannelCount drv t).2.2)) := by
  have hfreq := freqOfBitrate_eq_none bitrate hb
  obtain ⟨ho, hf⟩ := resolveScan_trace drv t hardware_id circuit_id
  have hcf : (KvaserCanUtils.getChannelCount drv t).2.2.filter DriverEvent.isBusConfig =
      t.filter DriverEvent.isBusConfig := by
    simp [KvaserCanUtils.getChannelCount, DriverEvent.isBusConfig]
  unfold resolveScan at ho hf ⊢
  unfold KvaserCan.open
  simp only [hs, hfreq]
  by_cases hc : (KvaserCanUtils.getChannelCount drv t).1 = ReturnStatuses.OK
  · by_cases hsc : (scanChannels drv hardware_id circuit_id
        (KvaserCanUtils.getChannelCount drv t).2.1.toNat 0
        (KvaserCanUtils.getChannelCount drv t).2.2 (-1)).1 = -1
    · simp [hc, hsc, hf, ho, hs]
    · by_cases hh : drv.canOpenChannel (scanChannels drv hardware_id circuit_id
          (KvaserCanUtils.getChannelCount drv t).2.1.toNat 0
          (KvaserCanUtils.getChannelCount drv t).2.2 (-1)).2
          (scanChannels drv hardware_id circuit_id
          (KvaserCanUtils.getChannelCount drv t).2.1.toNat 0
          (KvaserCanUtils.getChannelCount drv t).2.2 (-1)).1 canOPEN_ACCEPT_VIRTUAL < 0
      · simp [hc, hsc, hh, hf, ho, openedChannels, DriverEvent.isBusConfig]
      · simp [hc, hsc, hh, hf, ho, openedChannels, DriverEvent.isBusConfig]
        omega
  · simp [hc, hcf, hs]

/-- C2, amended, at a concrete input: the constructed session, the two-channel
card, the pair (1234, 1) and the bit rate 1; the driver hands out handle 0,
`open` returns BAD_PARAM and the handle afterwards is not the sentinel. -/
theorem open_unaccepted_bitrate_witness :
    ((KvaserCan.open cardDriver [] { handle := -1, on_bus := false } 1234 1 1 false).1 ≠
        ReturnStatuses.OK ∧
      (KvaserCan.open cardDriver [] { handle := -1, on_bus := false } 1234 1 1 false).2.1.on_bus
        = false ∧
      (KvaserCan.open cardDriver [] { handle := -1, on_bus := false } 1234 1 1 false).2.2.filter
          DriverEvent.isBusConfig = ([] : Trace).filter DriverEvent.isBusConfig) ∧
    ((KvaserCan.open cardDriver [] { handle := -1, on_bus := false } 1234 1 1 false).1 =
        ReturnStatuses.BAD_PARAM ∧
      0 ≤ (KvaserCan.open cardDriver [] { handle := -1, on_bus := false } 1234 1 1
        false).2.1.handle ∧
      (KvaserCan.open cardDriver [] { handle := -1, on_bus := false } 1234 1 1
        false).2.1.handle ≠ -1) :=
  ⟨(open_unaccepted_bitrate cardDriver [] { handle := -1, on_bus := false } 1234 1 1 false
      rfl (by decide)).1,
    ((open_unaccepted_bitrate cardDriver [] { handle := -1, on_bus := false } 1234 1 1 false
      rfl (by decide)).2.1 (by decide) (by decide)).2.2.2.2.1 (by decide)⟩

/-- C3. On a session that is not on bus, with a driver whose count query
succeeds with `N` channels: if exactly one index `i` in `[0, N)` satisfies both
predicates (serial read successfully and equal to `hardware_id`, on-card
channel number read successfully and equal to `circuit_id`, the comparisons
being those of the code: the word `serial[0]` and the channel number against
the `uint32_t` casts of the arguments) while every other index in range fails
one of them, the resolution scan selects `i` and `open` issues exactly one
`canOpenChannel` call, on channel `i`; and if no index in `[0, N)` satisfies
both predicates, `open` returns BAD_PARAM, leaves the session unchanged and
issues no `canOpenChannel` call. -/
theorem open_resolves_unique_match (drv : Driver) (t : Trace) (s : KvaserCan)
    (hardware_id circuit_id bitrate : Int) (echo_on : Bool) (N : Int)
    (hs : s.on_bus = false)
    (hN : drv.canGetNumberOfChannels t = (canOK, N)) :
    (∀ i, 0 ≤ i → i < N → IsMatch drv hardware_id circuit_id i →
      (∀ j, 0 ≤ j → j < N → j ≠ i → IsNoMatch drv hardware_id circuit_id j) →
      (resolveScan drv t hardware_id circuit_id).1 = i ∧
        openedChannels (KvaserCan.open drv t s hardware_id circuit_id bitrate echo_on).2.2 =
          i :: openedChannels t) ∧
    ((∀ j, 0 ≤ j → j < N → IsNoMatch drv hardware_id circuit_id j) →
      (KvaserCan.open drv t s hardware_id circuit_id bitrate echo_on).1 =
          ReturnStatuses.BAD_PARAM ∧
        (KvaserCan.open drv t s hardware_id circuit_id bitrate echo_on).2.1 = s ∧
        openedChannels (KvaserCan.open drv t s hardware_id circuit_id bitrate echo_on).2.2 =
          openedChannels t) := by
  obtain ⟨hc, hn⟩ := getChannelCount_of_ok drv t N hN
  constructor
  · intro i hi0 hiN hm hothers
    have hres : (resolveScan drv t hardware_id circuit_id).1 = i := by
      unfold resolveScan
      rw [hn]
      apply scanChannels_unique _ _ _ _ _ _ _ i (by omega) _ hm
      · intro j hj1 hj2 hj3
        exact hothers j (by omega) (by omega) hj3
      · omega
    refine ⟨hres, ?_⟩
    rw [open_openedChannels drv t s _ _ _ _ hs hc (by rw [hres]; omega), hres]
  · intro hnone
    have hres : (resolveScan drv t hardware_id circuit_id).1 = -1 := by
      unfold resolveScan
      rw [hn]
      apply scanChannels_nomatch
      intro j hj1 hj2
      exact hnone j (by omega) (by omega)
    rw [open_unresolved drv t s _ _ _ _ hs hc hres]
    exact ⟨rfl, rfl, (resolveScan_trace drv t hardware_id circuit_id).1⟩

/-- C3 at concrete inputs, on the card whose two channels share the serial
1234: the pair (1234, 0) opens channel 0 although index 1 has the same serial,
and the pair (1234, 7), which no index satisfies, gives BAD_PARAM. -/
theorem open_resolves_unique_match_witness :
    ((resolveScan cardDriver [] 1234 0).1 = 0 ∧
      openedChannels
        (KvaserCan.open cardDriver [] { handle := -1, on_bus := false } 1234 0 500000 true).2.2
          = 0 :: openedChannels []) ∧
    ((KvaserCan.open cardDriver [] { handle := -1, on_bus := false } 1234 7 500000 true).1 =
        ReturnStatuses.BAD_PARAM ∧
      (KvaserCan.open cardDriver [] { handle := -1, on_bus := false } 1234 7 500000 true).2.1 =
        { handle := -1, on_bus := false } ∧
      openedChannels
        (KvaserCan.open cardDriver [] { handle := -1, on_bus := false } 1234 7 500000 true).2.2
          = openedChannels []) :=
  ⟨(open_resolves_unique_match cardDriver [] { handle := -1, on_bus := false } 1234 0 500000
      true 2 rfl rfl).1 0 (by decide) (by decide)
      ⟨fun t => by simp [SerialMatchesAt, cardDriver, toUInt32],
        fun t => by simp [CircuitMatchesAt, cardDriver, toUInt32]⟩
      (fun j hj0 hj2 hj => Or.inr (fun t => by
        have hj1 : j = 1 := by omega
        subst hj1
        simp [CircuitMatchesAt, cardDriver, toUInt32])),
    (open_resolves_unique_match cardDriver [] { handle := -1, on_bus := false } 1234 7 500000
      true 2 rfl rfl).2
      (fun j hj0 hj2 => Or.inr (fun t => by
        have hj1 : j = 0 ∨ j = 1 := by omega
        rcases hj1 with rfl | rfl <;> simp [CircuitMatchesAt, cardDriver, toUInt32]))⟩

/-- C4. On a session that is on bus, `open` with any arguments returns OK,
issues no driver call (the history is unchanged) and leaves the session
unchanged; hence whenever an `open` has returned OK, an `open` called right
after it, with any arguments, returns OK with no driver call and no change. -/
theorem open_idempotent (drv : Driver) (t : Trace) (s : KvaserCan)
    (hardware_id circuit_id bitrate : Int) (echo_on : Bool)
    (hardware_id2 circuit_id2 bitrate2 : Int) (echo_on2 : Bool) :
    (s.on_bus = true →
      KvaserCan.open drv t s hardware_id circuit_id bitrate echo_on =
        (ReturnStatuses.OK, s, t)) ∧
    ((KvaserCan.open drv t s hardware_id circuit_id bitrate echo_on).1 = ReturnStatuses.OK →
      KvaserCan.open drv (KvaserCan.open drv t s hardware_id circuit_id bitrate echo_on).2.2
          (KvaserCan.open drv t s hardware_id circuit_id bitrate echo_on).2.1
          hardware_id2 circuit_id2 bitrate2 echo_on2 =
        (ReturnStatuses.OK,
          (KvaserCan.open drv t s hardware_id circuit_id bitrate echo_on).2.1,
          (KvaserCan.open drv t s hardware_id circuit_id bitrate echo_on).2.2)) := by
  refine ⟨open_of_on_bus drv t s _ _ _ _, fun hok => ?_⟩
  apply open_of_on_bus
  cases hs : s.on_bus with
  | true => rw [open_of_on_bus drv t s _ _ _ _ hs]; exact hs
  | false => exact (open_on_bus_iff drv t s _ _ _ _ hs).2 hok

/-- C4 at concrete inputs: on an on-bus session `open` with the unaccepted bit
rate 1 is a no-op returning OK; and after a successful `open` on the card, a
second `open` with an unknown pair and the bit rate 1 returns OK with the
history unchanged. -/
theorem open_idempotent_witness :
    KvaserCan.open nullDriver [] { handle := 3, on_bus := true } 99 99 1 false =
        (ReturnStatuses.OK, { handle := 3, on_bus := true }, []) ∧
    KvaserCan.open cardDriver
        (KvaserCan.open cardDriver [] { handle := -1, on_bus := false } 1234 0 500000 true).2.2
        (KvaserCan.open cardDriver [] { handle := -1, on_bus := false } 1234 0 500000 true).2.1
        99 99 1 false =
      (ReturnStatuses.OK,
        (KvaserCan.open cardDriver [] { handle := -1, on_bus := false } 1234 0 500000 true).2.1,
        (KvaserCan.open cardDriver [] { handle := -1, on_bus := false } 1234 0 500000 true).2.2) :=
  ⟨(open_idempotent nullDriver [] { handle := 3, on_bus := true } 99 99 1 false
      99 99 1 false).1 rfl,
    (open_idempotent cardDriver [] { handle := -1, on_bus := false } 1234 0 500000 true
      99 99 1 false).2 (by decide)⟩

/-- C5. From a session with `on_bus = false`, for all arguments and every
driver behaviour, after `open` the flag `on_bus` is true if and only if `open`
returned OK; so every other result leaves `on_bus` false. -/
theorem open_on_bus_iff_ok (drv : Driver) (t : Trace) (s : KvaserCan)
    (hardware_id circuit_id bitrate : Int) (echo_on : Bool) (hs : s.on_bus = false) :
    ((KvaserCan.open drv t s hardware_id circuit_id bitrate echo_on).2.1.on_bus = true ↔
      (KvaserCan.open drv t s hardware_id circuit_id bitrate echo_on).1 = ReturnStatuses.OK) ∧
    ((KvaserCan.open drv t s hardware_id circuit_id bitrate echo_on).1 ≠ ReturnStatuses.OK →
      (KvaserCan.open drv t s hardware_id circuit_id bitrate echo_on).2.1.on_bus = false) := by
  have h := open_on_bus_iff drv t s hardware_id circuit_id bitrate echo_on hs
  refine ⟨h, fun hne => ?_⟩
  cases hb : (KvaserCan.open drv t s hardware_id circuit_id bitrate echo_on).2.1.on_bus with
  | false => rfl
  | true => exact absurd (h.1 hb) hne

/-- C5 at a concrete input: a successful `open` on the card. -/
theorem open_on_bus_iff_ok_witness :
    ((KvaserCan.open cardDriver [] { handle := -1, on_bus := false } 1234 1 250000
        false).2.1.on_bus = true ↔
      (KvaserCan.open cardDriver [] { handle := -1, on_bus := false } 1234 1 250000
        false).1 = ReturnStatuses.OK) ∧
    (KvaserCan.open cardDriver [] { handle := -1, on_bus := false } 1234 1 250000
        false).1 = ReturnStatuses.OK :=
  ⟨(open_on_bus_iff_ok cardDriver [] { handle := -1, on_bus := false } 1234 1 250000 false
      rfl).1, by decide⟩

/-- C6. `close` is determined by the handle and the driver's answer.  With a
negative handle (the sentinel `-1`, or a negative value a failed
`canOpenChannel` left) it returns CHANNEL_CLOSED, issues no driver call and
changes nothing.  With a non-negative handle it issues exactly one `canClose`
on that handle: if the driver refuses, it returns CLOSE_FAILED and the session
is unchanged; if the driver accepts, it returns OK, the handle is the sentinel
`-1` and `on_bus` is false, and a second `close` right after returns
CHANNEL_CLOSED with no further driver call. -/
theorem close_spec (drv : Driver) (t : Trace) (s : KvaserCan) :
    (s.handle < 0 → KvaserCan.close drv t s = (ReturnStatuses.CHANNEL_CLOSED, s, t)) ∧
    (0 ≤ s.handle → drv.canClose t s.handle ≠ canOK →
      KvaserCan.close drv t s =
        (ReturnStatuses.CLOSE_FAILED, s,
          DriverEvent.close s.handle (drv.canClose t s.handle) :: t)) ∧
    (0 ≤ s.handle → drv.canClose t s.handle = canOK →
      KvaserCan.close drv t s =
          (ReturnStatuses.OK, { handle := -1, on_bus := false },
            DriverEvent.close s.handle canOK :: t) ∧
        KvaserCan.close drv (KvaserCan.close drv t s).2.2 (KvaserCan.close drv t s).2.1 =
          (ReturnStatuses.CHANNEL_CLOSED, { handle := -1, on_bus := false },
            DriverEvent.close s.handle canOK :: t)) := by
  refine ⟨fun h => ?_, fun h hr => ?_, fun h hr => ?_⟩
  · unfold KvaserCan.close
    simp [h]
  · have h' : ¬ s.handle < 0 := by omega
    unfold KvaserCan.close
    simp [h', hr]
  · have h' : ¬ s.handle < 0 := by omega
    have h1 : KvaserCan.close drv t s =
        (ReturnStatuses.OK, { handle := -1, on_bus := false },
          DriverEvent.close s.handle canOK :: t) := by
      unfold KvaserCan.close
      simp [h', hr]
    refine ⟨h1, ?_⟩
    rw [h1]
    unfold KvaserCan.close
    simp

/-- C6 at concrete inputs: a never-opened session, a refused close and an
accepted close followed by a second close. -/
theorem close_spec_witness :
    KvaserCan.close cardDriver [] { handle := -1, on_bus := false } =
        (ReturnStatuses.CHANNEL_CLOSED, { handle := -1, on_bus := false }, []) ∧
    KvaserCan.close nullDriver [] { handle := 2, on_bus := true } =
        (ReturnStatuses.CLOSE_FAILED, { handle := 2, on_bus := true },
          [DriverEvent.close 2 canERR_PARAM]) ∧
    (KvaserCan.close cardDriver [] { handle := 2, on_bus := true } =
        (ReturnStatuses.OK, { handle := -1, on_bus := false }, [DriverEvent.close 2 canOK]) ∧
      KvaserCan.close cardDriver
          (KvaserCan.close cardDriver [] { handle := 2, on_bus := true }).2.2
          (KvaserCan.close cardDriver [] { handle := 2, on_bus := true }).2.1 =
        (ReturnStatuses.CHANNEL_CLOSED, { handle := -1, on_bus := false },
          [DriverEvent.close 2 canOK])) :=
  ⟨(close_spec cardDriver [] { handle := -1, on_bus := false }).1 (by decide),
    (close_spec nullDriver [] { handle := 2, on_bus := true }).2.1 (by decide) (by decide),
    (close_spec cardDriver [] { handle := 2, on_bus := true }).2.2 (by decide) rfl⟩

/-- C7, as stated, fails: on an Open session (handle 0, on bus), with a driver
whose status probe succeeds and reports bus-off but whose `canClose` is
refused, `isOpen` returns false and the session is still Open afterwards:
handle 0, `on_bus` true. -/
theorem isOpen_bus_off_close_refused :
    KvaserCan.isOpen (busOffDriver canERR_PARAM) [] { handle := 0, on_bus := true } =
      (false, { handle := 0, on_bus := true },
        [DriverEvent.close 0 canERR_PARAM, DriverEvent.readStatus 0 canOK canSTAT_BUS_OFF]) := by
  decide

/-- C7, amended.  For every Open session (handle non-negative, on bus) and every
driver behaviour in which the status probe succeeds and reports the bus-off
flag set, `isOpen` returns false after one status probe and one `canClose`; the
session is Closed afterwards (handle `-1`, `on_bus` false) when the driver
accepts that `canClose`, and is unchanged when the driver refuses it. -/
theorem isOpen_bus_off (drv : Driver) (t : Trace) (s : KvaserCan)
    (hh : 0 ≤ s.handle) (hb : s.on_bus = true)
    (hst : (drv.canReadStatus t s.handle).1 = canOK)
    (hflag : (drv.canReadStatus t s.handle).2 &&& canSTAT_BUS_OFF ≠ 0) :
    (KvaserCan.isOpen drv t s).1 = false ∧
    (KvaserCan.isOpen drv t s).2.2 =
      DriverEvent.close s.handle
          (drv.canClose
            (DriverEvent.readStatus s.handle canOK (drv.canReadStatus t s.handle).2 :: t)
            s.handle) ::
        DriverEvent.readStatus s.handle canOK (drv.canReadStatus t s.handle).2 :: t ∧
    (drv.canClose (DriverEvent.readStatus s.handle canOK (drv.canReadStatus t s.handle).2 :: t)
        s.handle = canOK →
      (KvaserCan.isOpen drv t s).2.1 = { handle := -1, on_bus := false }) ∧
    (drv.canClose (DriverEvent.readStatus s.handle canOK (drv.canReadStatus t s.handle).2 :: t)
        s.handle ≠ canOK →
      (KvaserCan.isOpen drv t s).2.1 = s) := by
  have h' : ¬ s.handle < 0 := by omega
  have hgt := and_bus_off_gt_one _ hflag
  unfold KvaserCan.isOpen KvaserCan.close
  simp only [h', hb, hst, if_true, if_false, ne_eq, not_true_eq_false, hgt]
  by_cases hc : drv.canClose
      (DriverEvent.readStatus s.handle canOK (drv.canReadStatus t s.handle).2 :: t)
      s.handle = canOK
  · simp [hc]
  · simp [hc]

/-- C7, amended, at concrete inputs: the close accepted, and the close refused. -/
theorem isOpen_bus_off_witness :
    ((KvaserCan.isOpen (busOffDriver canOK) [] { handle := 0, on_bus := true }).1 = false ∧
      (KvaserCan.isOpen (busOffDriver canOK) [] { handle := 0, on_bus := true }).2.1 =
        { handle := -1, on_bus := false }) ∧
    (KvaserCan.isOpen (busOffDriver canERR_PARAM) [] { handle := 0, on_bus := true }).2.1 =
      { handle := 0, on_bus := true } :=
  ⟨⟨(isOpen_bus_off (busOffDriver canOK) [] { handle := 0, on_bus := true }
        (by decide) rfl rfl (by decide)).1,
      (isOpen_bus_off (busOffDriver canOK) [] { handle := 0, on_bus := true }
        (by decide) rfl rfl (by decide)).2.2.1 rfl⟩,
    (isOpen_bus_off (busOffDriver canERR_PARAM) [] { handle := 0, on_bus := true }
      (by decide) rfl rfl (by decide)).2.2.2 (by decide)⟩

/-- C8, as stated, fails: after an `open` that failed on the bit rate (handle
0, `on_bus` false) the session is not Open, yet `write` issues a driver write
and returns OK, and `read` issues a driver read and returns
NO_MESSAGES_RECEIVED; neither returns CHANNEL_CLOSED. -/
theorem read_write_ignore_on_bus :
    (KvaserCan.open cardDriver [] { handle := -1, on_bus := false } 1234 0 1 true).2.1 =
        { handle := 0, on_bus := false } ∧
    (KvaserCan.write cardDriver [] { handle := 0, on_bus := false } 0x123 [1, 2] 2 false) =
        (ReturnStatuses.OK, { handle := 0, on_bus := false },
          [DriverEvent.write 0 0x123 [1, 2] 2 canMSG_STD canOK]) ∧
    KvaserCan.read cardDriver 1 [] { handle := 0, on_bus := false }
        { id := 0, msg := [], size := 0, extended := false, time := 0 } =
      some (ReturnStatuses.NO_MESSAGES_RECEIVED, { handle := 0, on_bus := false },
        { id := 0, msg := [], size := 0, extended := false, time := 0 },
        [DriverEvent.read 0 canERR_NOMSG
          { id := 0, msg := [], size := 0, flag := 0, time := 0 }]) := by
  decide

/-- C8, amended.  For every session whose handle is negative, whatever
`on_bus` is, `read` and `write` return CHANNEL_CLOSED immediately: no driver
call is issued and the session and the caller's buffers are unchanged.  The
flag `on_bus` is not consulted: on every session whose handle is non-negative,
also with `on_bus` false, `write` issues exactly one `canWrite`, and a `read`
that returns has issued its first `canRead`. -/
theorem read_write_closed_of_negative_handle (drv : Driver) (t : Trace) (s : KvaserCan)
    (fuel : Nat) (out : ReadOut) (id : Int) (msg : List Nat) (size : Nat) (extended : Bool) :
    (s.handle < 0 →
      KvaserCan.read drv fuel t s out = some (ReturnStatuses.CHANNEL_CLOSED, s, out, t) ∧
        KvaserCan.write drv t s id msg size extended =
          (ReturnStatuses.CHANNEL_CLOSED, s, t)) ∧
    (0 ≤ s.handle →
      (KvaserCan.write drv t s id msg size extended).2.2 =
          DriverEvent.write s.handle id msg size (if extended then canMSG_EXT else canMSG_STD)
            (drv.canWrite t s.handle id msg size
              (if extended then canMSG_EXT else canMSG_STD)) :: t ∧
        ∀ r, KvaserCan.read drv fuel t s out = some r →
          DriverEvent.read s.handle (drv.canRead t s.handle out.toFrame).1
            (drv.canRead t s.handle out.toFrame).2 ∈ r.2.2.2) := by
  constructor
  · intro h
    unfold KvaserCan.read KvaserCan.write
    simp [h]
  · intro h
    have h' : ¬ s.handle < 0 := by omega
    constructor
    · unfold KvaserCan.write
      simp [h']
    · intro r hr
      unfold KvaserCan.read at hr
      rw [if_neg h'] at hr
      cases hl : readLoop drv fuel t s out.toFrame with
      | none => simp [hl] at hr
      | some r1 =>
        obtain ⟨es, hes⟩ := readLoop_trace drv fuel t s out.toFrame r1 hl
        obtain ⟨ret_val, s1, buf, t1⟩ := r1
        simp only [hl] at hr
        rw [← Option.some.inj hr]
        simp only at hes ⊢
        rw [hes]
        simp

/-- C8, amended, at concrete inputs: the constructed session, and a session
with handle 0 that is not on bus. -/
theorem read_write_closed_of_negative_handle_witness :
    (KvaserCan.read dataDriver 5 [] { handle := -1, on_bus := false }
          { id := 0, msg := [], size := 0, extended := false, time := 0 } =
        some (ReturnStatuses.CHANNEL_CLOSED, { handle := -1, on_bus := false },
          { id := 0, msg := [], size := 0, extended := false, time := 0 }, []) ∧
      KvaserCan.write dataDriver [] { handle := -1, on_bus := false } 7 [1] 1 true =
        (ReturnStatuses.CHANNEL_CLOSED, { handle := -1, on_bus := false }, [])) ∧
    (KvaserCan.write dataDriver [] { handle := 0, on_bus := false } 7 [1] 1 true).2.2 =
      [DriverEvent.write 0 7 [1] 1 canMSG_EXT canOK] :=
  ⟨(read_write_closed_of_negative_handle dataDriver [] { handle := -1, on_bus := false } 5
      { id := 0, msg := [], size := 0, extended := false, time := 0 } 7 [1] 1 true).1
      (by decide),
    ((read_write_closed_of_negative_handle dataDriver [] { handle := 0, on_bus := false } 5
      { id := 0, msg := [], size := 0, extended := false, time := 0 } 7 [1] 1 true).2
      (by decide)).1⟩

/-- C9, at the failing input: on the card, an `open` that fails on the bit rate
followed by an `open` that succeeds.  The driver then holds the handles 1 and
0 while the session's handle is 1, and after destruction the driver still
holds handle 0. -/
theorem reopen_after_failed_open_leaks_handle :
    (run cardDriver (KvaserCan.new [])
        [Call.open 1234 0 1 true, Call.open 1234 0 500000 true]).map
      (fun w => (w.1, openHandles w.2, openHandles (KvaserCan.destroy cardDriver w.2 w.1))) =
      some ({ handle := 1, on_bus := true }, [1, 0], [0]) := by
  decide

/-- C10. Starting from the constructed state (handle `-1`, `on_bus` false), for
every driver behaviour and every finite sequence of `open`, `isOpen`, `close`,
`read` and `write` calls that return, in the state reached `on_bus = true`
implies that the handle is non-negative. -/
theorem on_bus_implies_valid_handle (drv : Driver) (t : Trace) (calls : List Call)
    (w : KvaserCan × Trace) (hrun : run drv (KvaserCan.new t) calls = some w) :
    w.1.on_bus = true → 0 ≤ w.1.handle :=
  run_preserves drv calls (KvaserCan.new t) w hrun (by simp [KvaserCan.new])

/-- C10 at a concrete input: on the card, a successful `open` followed by a
status probe reaches a state that is on bus, with handle 0. -/
theorem on_bus_implies_valid_handle_witness :
    run cardDriver (KvaserCan.new []) [Call.open 1234 1 125000 true, Call.isOpen] =
        some ({ handle := 0, on_bus := true },
          [DriverEvent.readStatus 0 canOK 0,
            DriverEvent.busOn 0 canOK,
            DriverEvent.setBusOutputControl 0 canDRIVER_NORMAL canOK,
            DriverEvent.setBusParams 0 canBITRATE_125K canOK,
            DriverEvent.openChannel 1 canOPEN_ACCEPT_VIRTUAL 0,
            DriverEvent.getChannelData 1 ChannelDataItem.CHAN_NO_ON_CARD canOK
              { w0 := 1, w1 := 0 },
            DriverEvent.getChannelData 1 ChannelDataItem.CARD_SERIAL_NO canOK
              { w0 := 1234, w1 := 0 },
            DriverEvent.getChannelData 0 ChannelDataItem.CHAN_NO_ON_CARD canOK
              { w0 := 0, w1 := 0 },
            DriverEvent.getChannelData 0 ChannelDataItem.CARD_SERIAL_NO canOK
              { w0 := 1234, w1 := 0 },
            DriverEvent.getNumberOfChannels canOK 2,
            DriverEvent.initializeLibrary]) ∧
    (0 : Int) ≤ ({ handle := 0, on_bus := true } : KvaserCan).handle :=
  ⟨by decide,
    on_bus_implies_valid_handle cardDriver [] [Call.open 1234 1 125000 true, Call.isOpen]
      ({ handle := 0, on_bus := true },
        [DriverEvent.readStatus 0 canOK 0,
          DriverEvent.busOn 0 canOK,
          DriverEvent.setBusOutputControl 0 canDRIVER_NORMAL canOK,
          DriverEvent.setBusParams 0 canBITRATE_125K canOK,
          DriverEvent.openChannel 1 canOPEN_ACCEPT_VIRTUAL 0,
          DriverEvent.getChannelData 1 ChannelDataItem.CHAN_NO_ON_CARD canOK
            { w0 := 1, w1 := 0 },
          DriverEvent.getChannelData 1 ChannelDataItem.CARD_SERIAL_NO canOK
            { w0 := 1234, w1 := 0 },
          DriverEvent.getChannelData 0 ChannelDataItem.CHAN_NO_ON_CARD canOK
            { w0 := 0, w1 := 0 },
          DriverEvent.getChannelData 0 ChannelDataItem.CARD_SERIAL_NO canOK
            { w0 := 1234, w1 := 0 },
          DriverEvent.getNumberOfChannels canOK 2,
          DriverEvent.initializeLibrary])
      (by decide) rfl⟩

/-- C11. For every driver whose count query succeeds with the count `N`:
when `0 ≤ N < 300`, `getChannels` returns exactly `N` descriptors, the `k`-th
having channel index `k`, whatever the metadata queries answer; when `N` is
negative or at least 300, it returns the empty sequence and issues no driver
call besides the count query. -/
theorem getChannels_count (drv : Driver) (chan0 : KvaserChannel) (t : Trace) (N : Int)
    (hN : drv.canGetNumberOfChannels t = (canOK, N)) :
    (0 ≤ N → N < 300 →
      ((KvaserCanUtils.getChannels drv chan0 t).1.length : Int) = N ∧
        ∀ k : Nat, (k : Int) < N →
          ((KvaserCanUtils.getChannels drv chan0 t).1[k]?).map KvaserChannel.channel_no =
            some (k : Int)) ∧
    ((N < 0 ∨ 300 ≤ N) →
      KvaserCanUtils.getChannels drv chan0 t =
        ([], DriverEvent.getNumberOfChannels canOK N :: t)) := by
  constructor
  · intro h0 h300
    rw [getChannels_in_range drv chan0 t N hN h0 h300]
    constructor
    · rw [getChannelsLoop_length]; omega
    · intro k hk
      rw [getChannelsLoop_get _ _ _ _ _ k (by omega), Option.map_some', getChannelsStep_channel_no]
      simp
  · exact getChannels_out_of_range drv chan0 t N hN

/-- C11 at concrete inputs: two channels with failing queries give two
descriptors with indices 0 and 1; the counts 300 and -1 give none. -/
theorem getChannels_count_witness :
    (((KvaserCanUtils.getChannels partialDriver defaultChannel []).1.length : Int) = 2 ∧
      ∀ k : Nat, (k : Int) < 2 →
        ((KvaserCanUtils.getChannels partialDriver defaultChannel []).1[k]?).map
          KvaserChannel.channel_no = some (k : Int)) ∧
    KvaserCanUtils.getChannels (countDriver 300) defaultChannel [] =
      ([], [DriverEvent.getNumberOfChannels canOK 300]) ∧
    KvaserCanUtils.getChannels (countDriver (-1)) defaultChannel [] =
      ([], [DriverEvent.getNumberOfChannels canOK (-1)]) :=
  ⟨(getChannels_count partialDriver defaultChannel [] 2 rfl).1 (by decide) (by decide),
    (getChannels_count (countDriver 300) defaultChannel [] 300 rfl).2 (by decide),
    (getChannels_count (countDriver (-1)) defaultChannel [] (-1) rfl).2 (by decide)⟩

/-- C12. For every driver whose count query succeeds with a count `N < 300`,
every `k` below `N` and a default-constructed descriptor whose validity flag
is true: the `k`-th descriptor of `getChannels` has channel index `k`; its
`all_data_valid` flag is true if and only if all six metadata queries of index
`k` were answered `canOK`; and each field equals the value the driver reported
when its query was answered `canOK` and keeps its default value otherwise. -/
theorem getChannels_descriptor (drv : Driver) (chan0 : KvaserChannel) (t : Trace) (N : Int)
    (k : Nat) (hN : drv.canGetNumberOfChannels t = (canOK, N)) (h300 : N < 300)
    (hk : (k : Int) < N) (hvalid : chan0.all_data_valid = true) :
    ∃ c tk, tk = getChannelsHistory drv chan0 k 0 (DriverEvent.getNumberOfChannels canOK N :: t) ∧
      (KvaserCanUtils.getChannels drv chan0 t).1[k]? = some c ∧
      c.channel_no = k ∧
      (c.all_data_valid = true ↔ ∀ item, (channelReply drv k tk item).1 = canOK) ∧
      c.serial_no =
        (if (channelReply drv k tk ChannelDataItem.CARD_SERIAL_NO).1 = canOK
          then (channelReply drv k tk ChannelDataItem.CARD_SERIAL_NO).2.toUInt64
          else chan0.serial_no) ∧
      c.card_no =
        (if (channelReply drv k tk ChannelDataItem.CARD_NUMBER).1 = canOK
          then (channelReply drv k tk ChannelDataItem.CARD_NUMBER).2.toUInt32
          else chan0.card_no) ∧
      c.channel_no_on_card =
        (if (channelReply drv k tk ChannelDataItem.CHAN_NO_ON_CARD).1 = canOK
          then (channelReply drv k tk ChannelDataItem.CHAN_NO_ON_CARD).2.toUInt32
          else chan0.channel_no_on_card) ∧
      c.hw_type =
        (if (channelReply drv k tk ChannelDataItem.CARD_TYPE).1 = canOK
          then (channelReply drv k tk ChannelDataItem.CARD_TYPE).2.toUInt32
          else chan0.hw_type) ∧
      c.firmware_rev_maj =
        (if (channelReply drv k tk ChannelDataItem.CARD_FIRMWARE_REV).1 = canOK
          then (channelReply drv k tk ChannelDataItem.CARD_FIRMWARE_REV).2.toUInt16 0
          else chan0.firmware_rev_maj) ∧
      c.firmware_rev_min =
        (if (channelReply drv k tk ChannelDataItem.CARD_FIRMWARE_REV).1 = canOK
          then (channelReply drv k tk ChannelDataItem.CARD_FIRMWARE_REV).2.toUInt16 1
          else chan0.firmware_rev_min) ∧
      c.firmware_rev_rel =
        (if (channelReply drv k tk ChannelDataItem.CARD_FIRMWARE_REV).1 = canOK
          then (channelReply drv k tk ChannelDataItem.CARD_FIRMWARE_REV).2.toUInt16 2
          else chan0.firmware_rev_rel) ∧
      c.firmware_rev_bld =
        (if (channelReply drv k tk ChannelDataItem.CARD_FIRMWARE_REV).1 = canOK
          then (channelReply drv k tk ChannelDataItem.CARD_FIRMWARE_REV).2.toUInt16 3
          else chan0.firmware_rev_bld) ∧
      c.max_bitrate =
        (if (channelReply drv k tk ChannelDataItem.MAX_BITRATE).1 = canOK
          then (channelReply drv k tk ChannelDataItem.MAX_BITRATE).2.toUInt32
          else chan0.max_bitrate) := by
  refine ⟨(getChannelsStep drv chan0 k (getChannelsHistory drv chan0 k 0
      (DriverEvent.getNumberOfChannels canOK N :: t))).1,
    getChannelsHistory drv chan0 k 0 (DriverEvent.getNumberOfChannels canOK N :: t), rfl,
    ?_, ?_, ?_, ?_, ?_, ?_, ?_, ?_, ?_, ?_, ?_, ?_⟩
  · rw [getChannels_in_range drv chan0 t N hN (by omega) h300,
      getChannelsLoop_get _ _ _ _ _ k (by omega), Int.zero_add]
  · exact getChannelsStep_channel_no _ _ _ _
  · rw [getChannelsStep_valid]
    simp [hvalid]
  · exact getChannelsStep_serial_no _ _ _ _
  · exact getChannelsStep_card_no _ _ _ _
  · exact getChannelsStep_channel_no_on_card _ _ _ _
  · exact getChannelsStep_hw_type _ _ _ _
  · exact getChannelsStep_firmware_rev_maj _ _ _ _
  · exact getChannelsStep_firmware_rev_min _ _ _ _
  · exact getChannelsStep_firmware_rev_rel _ _ _ _
  · exact getChannelsStep_firmware_rev_bld _ _ _ _
  · exact getChannelsStep_max_bitrate _ _ _ _

/-- C12 at a concrete input: the descriptor of index 1 of the two-channel
driver whose card-type and firmware queries fail at index 1. -/
theorem getChannels_descriptor_witness :
    (KvaserCanUtils.getChannels partialDriver defaultChannel []).1[1]? =
      some
        { channel_no := 1, serial_no := 4294968530, card_no := 0, channel_no_on_card := 1,
          hw_type := 0, firmware_rev_maj := 0, firmware_rev_min := 0, firmware_rev_rel := 0,
          firmware_rev_bld := 0, max_bitrate := 1000000, all_data_valid := false } ∧
    ∃ c, (KvaserCanUtils.getChannels partialDriver defaultChannel []).1[1]? = some c ∧
      c.channel_no = 1 :=
  ⟨by decide,
    let ⟨c, _, _, h1, h2, _⟩ :=
      getChannels_descriptor partialDriver defaultChannel [] 2 1 rfl (by decide) (by decide) rfl
    ⟨c, h1, h2⟩⟩

/-- C13. On a session whose handle is non-negative, when the driver's queue
holds `n` events (of any status and flag) after which it reports "no message",
`read` with fuel for `n + 1` iterations returns, having issued at least one and
at most `n + 1` driver reads.  When all `n` events are protocol-internal
(status OK, flag meeting the mask `0xF9`), in particular when `n = 0`, it
returns NO_MESSAGES_RECEIVED after exactly those `n + 1` driver reads, with
the session unchanged. -/
theorem read_terminates_on_empty_driver (drv : Driver) (t : Trace) (s : KvaserCan)
    (out : ReadOut) (evs : List (Int × CanFrame)) (b : CanFrame) (fuel : Nat)
    (hh : 0 ≤ s.handle)
    (hdel : Delivers drv s.handle t out.toFrame (evs ++ [(canERR_NOMSG, b)]))
    (hfuel : evs.length + 1 ≤ fuel) :
    (∃ r, KvaserCan.read drv fuel t s out = some r ∧
      countReads t < countReads r.2.2.2 ∧
      countReads r.2.2.2 ≤ countReads t + (evs.length + 1)) ∧
    ((∀ e ∈ evs, e.1 = canOK ∧ e.2.flag &&& 0xF9 ≠ 0) →
      KvaserCan.read drv fuel t s out =
        some (ReturnStatuses.NO_MESSAGES_RECEIVED, s,
          { id := b.id, msg := b.msg, size := b.size, extended := out.extended,
            time := b.time },
          DriverEvent.read s.handle canERR_NOMSG b ::
            ((evs.map fun e => DriverEvent.read s.handle e.1 e.2).reverse ++ t))) := by
  have hneg : ¬ s.handle < 0 := by omega
  obtain ⟨extra, rfl⟩ : ∃ extra, fuel = evs.length + 1 + extra :=
    ⟨fuel - (evs.length + 1), by omega⟩
  constructor
  · obtain ⟨r, hr, hlo, hhi⟩ := readLoop_terminates drv s evs b t out.toFrame hdel
    have hr2 := readLoop_fuel_add drv _ extra t s out.toFrame r hr
    obtain ⟨ret_val, s1, buf, t1⟩ := r
    have hval : KvaserCan.read drv (evs.length + 1 + extra) t s out =
        some (ret_val, s1,
          { id := buf.id, msg := buf.msg, size := buf.size,
            extended :=
              if ret_val = ReturnStatuses.OK then decide ((buf.flag &&& canMSG_EXT) > 0)
              else out.extended,
            time := buf.time },
          t1) := by
      unfold KvaserCan.read
      rw [if_neg hneg, hr2]
    exact ⟨_, hval, hlo, hhi⟩
  · intro hint
    rw [delivers_append] at hdel
    obtain ⟨hdel1, hdel2, -⟩ := hdel
    have hskip := readLoop_skip drv s evs hint t out.toFrame hdel1 (1 + extra)
    have htr := afterReads_trace s.handle evs t out.toFrame
    unfold KvaserCan.read
    rw [if_neg hneg, Nat.add_assoc, hskip, Nat.add_comm 1 extra, readLoop, hdel2, htr]
    simp only
    rw [if_neg (by decide)]
    simp

/-- C13 at concrete inputs: an empty queue gives NO_MESSAGES_RECEIVED after
one driver read; two transmit acknowledgements and then an empty queue give
NO_MESSAGES_RECEIVED after three driver reads. -/
theorem read_terminates_on_empty_driver_witness :
    KvaserCan.read cardDriver 1 [] { handle := 0, on_bus := true }
        { id := 0, msg := [], size := 0, extended := false, time := 0 } =
      some (ReturnStatuses.NO_MESSAGES_RECEIVED, { handle := 0, on_bus := true },
        { id := 0, msg := [], size := 0, extended := false, time := 0 },
        [DriverEvent.read 0 canERR_NOMSG
          { id := 0, msg := [], size := 0, flag := 0, time := 0 }]) ∧
    KvaserCan.read ackAckEmptyDriver 3 [] { handle := 0, on_bus := true }
        { id := 0, msg := [], size := 0, extended := false, time := 0 } =
      some (ReturnStatuses.NO_MESSAGES_RECEIVED, { handle := 0, on_bus := true },
        { id := 0x7FF, msg := [], size := 0, extended := false, time := 10 },
        [DriverEvent.read 0 canERR_NOMSG ackFrame, DriverEvent.read 0 canOK ackFrame,
          DriverEvent.read 0 canOK ackFrame]) :=
  ⟨(read_terminates_on_empty_driver cardDriver [] { handle := 0, on_bus := true }
      { id := 0, msg := [], size := 0, extended := false, time := 0 } []
      { id := 0, msg := [], size := 0, flag := 0, time := 0 } 1 (by decide)
      (by simp [Delivers, cardDriver, ReadOut.toFrame]) (by decide)).2 (by simp),
    (read_terminates_on_empty_driver ackAckEmptyDriver [] { handle := 0, on_bus := true }
      { id := 0, msg := [], size := 0, extended := false, time := 0 }
      [(canOK, ackFrame), (canOK, ackFrame)] ackFrame 3 (by decide)
      (by simp [Delivers, ackAckEmptyDriver, countReads]) (by decide)).2 (by decide)⟩

/-- C14. On a session whose handle is non-negative, if `write` of a frame
returns OK and the driver's next `canRead` then delivers exactly that frame
(same identifier, payload and size, and the flag word `write` passed to
`canWrite`), `read` returns OK after that one driver read, with the same
identifier, payload and size and with `extended` equal to the `extended`
argument of `write`. -/
theorem write_read_round_trip (drv : Driver) (t : Trace) (s : KvaserCan)
    (id : Int) (msg : List Nat) (size : Nat) (extended : Bool) (out : ReadOut) (tm : Nat)
    (fuel : Nat) (hh : 0 ≤ s.handle)
    (hw : (KvaserCan.write drv t s id msg size extended).1 = ReturnStatuses.OK)
    (hloop : drv.canRead (KvaserCan.write drv t s id msg size extended).2.2 s.handle
        out.toFrame =
      (canOK, { id := id, msg := msg, size := size,
                flag := if extended then canMSG_EXT else canMSG_STD, time := tm })) :
    (KvaserCan.write drv t s id msg size extended).2.2 =
        DriverEvent.write s.handle id msg size (if extended then canMSG_EXT else canMSG_STD)
          canOK :: t ∧
    KvaserCan.read drv (fuel + 1) (KvaserCan.write drv t s id msg size extended).2.2
        (KvaserCan.write drv t s id msg size extended).2.1 out =
      some (ReturnStatuses.OK, s,
        { id := id, msg := msg, size := size, extended := extended, time := tm },
        DriverEvent.read s.handle canOK
            { id := id, msg := msg, size := size,
              flag := if extended then canMSG_EXT else canMSG_STD, time := tm } ::
          (KvaserCan.write drv t s id msg size extended).2.2) := by
  have hneg : ¬ s.handle < 0 := by omega
  have hs : (KvaserCan.write drv t s id msg size extended).2.1 = s := by
    unfold KvaserCan.write
    simp [hneg]
  have hstat : drv.canWrite t s.handle id msg size
      (if extended then canMSG_EXT else canMSG_STD) = canOK := by
    unfold KvaserCan.write at hw
    simp only [hneg, if_false] at hw
    by_contra hne
    simp [hne] at hw
  constructor
  · unfold KvaserCan.write
    simp [hneg, hstat]
  · rw [hs]
    unfold KvaserCan.read
    rw [if_neg hneg, readLoop, hloop]
    have e1 : (2 : Nat) &&& 249 = 0 := by decide
    have e2 : (4 : Nat) &&& 249 = 0 := by decide
    have e3 : (2 : Nat) &&& 4 = 0 := by decide
    have e4 : (4 : Nat) &&& 4 = 4 := by decide
    cases extended <;>
      simp [canOK, canERR_NOTINITIALIZED, canERR_NOMSG, canMSG_EXT, canMSG_STD, e1, e2, e3, e4]

/-- C14 at a concrete input: through the loopback driver, `write` of the
extended frame `0x1ABCDEF` followed by `read` yields `extended = true` and the
identifier `0x1ABCDEF`. -/
theorem write_read_round_trip_witness :
    KvaserCan.read loopbackDriver 1
        (KvaserCan.write loopbackDriver [] { handle := 0, on_bus := true } 0x1ABCDEF
          [1, 2, 3] 3 true).2.2
        (KvaserCan.write loopbackDriver [] { handle := 0, on_bus := true } 0x1ABCDEF
          [1, 2, 3] 3 true).2.1
        { id := 0, msg := [], size := 0, extended := false, time := 0 } =
      some (ReturnStatuses.OK, { handle := 0, on_bus := true },
        { id := 0x1ABCDEF, msg := [1, 2, 3], size := 3, extended := true, time := 77 },
        DriverEvent.read 0 canOK
            { id := 0x1ABCDEF, msg := [1, 2, 3], size := 3,
              flag := if true then canMSG_EXT else canMSG_STD, time := 77 } ::
          (KvaserCan.write loopbackDriver [] { handle := 0, on_bus := true } 0x1ABCDEF
            [1, 2, 3] 3 true).2.2) :=
  (write_read_round_trip loopbackDriver [] { handle := 0, on_bus := true } 0x1ABCDEF
    [1, 2, 3] 3 true { id := 0, msg := [], size := 0, extended := false, time := 0 } 77 0
    (by decide) (by decide) (by decide)).2

/-- C15. On a session whose handle is non-negative, `write` issues exactly one
`canWrite`, carrying the given identifier, payload and size and the flag word
`canMSG_EXT` when `extended` is true and `canMSG_STD` when it is false; it
returns OK if the driver's status is `canOK` and WRITE_FAILED for every other
status.  On every session, `write` leaves handle and `on_bus` unchanged. -/
theorem write_spec (drv : Driver) (t : Trace) (s : KvaserCan)
    (id : Int) (msg : List Nat) (size : Nat) (extended : Bool) :
    (0 ≤ s.handle →
      (KvaserCan.write drv t s id msg size extended).2.2 =
          DriverEvent.write s.handle id msg size (if extended then canMSG_EXT else canMSG_STD)
            (drv.canWrite t s.handle id msg size
              (if extended then canMSG_EXT else canMSG_STD)) :: t ∧
        (drv.canWrite t s.handle id msg size (if extended then canMSG_EXT else canMSG_STD) =
            canOK →
          (KvaserCan.write drv t s id msg size extended).1 = ReturnStatuses.OK) ∧
        (drv.canWrite t s.handle id msg size (if extended then canMSG_EXT else canMSG_STD) ≠
            canOK →
          (KvaserCan.write drv t s id msg size extended).1 = ReturnStatuses.WRITE_FAILED)) ∧
    (KvaserCan.write drv t s id msg size extended).2.1 = s := by
  constructor
  · intro hh
    have hneg : ¬ s.handle < 0 := by omega
    unfold KvaserCan.write
    simp only [hneg, if_false]
    refine ⟨trivial, fun h => ?_, fun h => ?_⟩
    · simp [h]
    · simp [h]
  · unfold KvaserCan.write
    split_ifs <;> rfl

/-- C15 at concrete inputs: an accepted extended write and a refused standard
write. -/
theorem write_spec_witness :
    KvaserCan.write cardDriver [] { handle := 0, on_bus := true } 0x1ABCDEF [1] 1 true =
        (ReturnStatuses.OK, { handle := 0, on_bus := true },
          [DriverEvent.write 0 0x1ABCDEF [1] 1 canMSG_EXT canOK]) ∧
    (KvaserCan.write nullDriver [] { handle := 0, on_bus := true } 0x123 [1] 1 false).1 =
        ReturnStatuses.WRITE_FAILED :=
  ⟨by decide,
    ((write_spec nullDriver [] { handle := 0, on_bus := true } 0x123 [1] 1 false).1
      (by decide)).2.2 (by decide)⟩

/-- C16. On a session that is not on bus, with a driver whose count query
succeeds, that resolves the requested pair and returns a non-negative handle
to this `open`: for each of the bit rates 125000, 250000, 500000 and 1000000,
if the driver accepts the bus-parameter configuration this `open` issues (with
`canBITRATE_125K`, `canBITRATE_250K`, `canBITRATE_500K` and `canBITRATE_1M`
respectively) and succeeds at its bus-on, `open` returns OK, having issued
exactly one `canSetBusParams` call, with that constant; and for every other
value of `bitrate`, zero and negative values included, `open` returns
BAD_PARAM without a `canSetBusParams` call.  Nothing is assumed about the
driver's answers to calls this `open` does not issue. -/
theorem open_accepted_bitrates (drv : Driver) (t : Trace) (s : KvaserCan)
    (hardware_id circuit_id bitrate : Int) (echo_on : Bool)
    (hs : s.on_bus = false)
    (hc : (KvaserCanUtils.getChannelCount drv t).1 = ReturnStatuses.OK)
    (hres : (resolveScan drv t hardware_id circuit_id).1 ≠ -1)
    (hopen : 0 ≤ openedHandle drv t hardware_id circuit_id) :
    (bitrate = 125000 →
      0 ≤ drv.canSetBusParams (historyAfterOpenChannel drv t hardware_id circuit_id)
          (openedHandle drv t hardware_id circuit_id) canBITRATE_125K →
      0 ≤ drv.canBusOn
          (historyBeforeBusOn drv t hardware_id circuit_id canBITRATE_125K echo_on)
          (openedHandle drv t hardware_id circuit_id) →
      (KvaserCan.open drv t s hardware_id circuit_id bitrate echo_on).1 = ReturnStatuses.OK ∧
        busParamFreqs (KvaserCan.open drv t s hardware_id circuit_id bitrate echo_on).2.2 =
          canBITRATE_125K :: busParamFreqs t) ∧
    (bitrate = 250000 →
      0 ≤ drv.canSetBusParams (historyAfterOpenChannel drv t hardware_id circuit_id)
          (openedHandle drv t hardware_id circuit_id) canBITRATE_250K →
      0 ≤ drv.canBusOn
          (historyBeforeBusOn drv t hardware_id circuit_id canBITRATE_250K echo_on)
          (openedHandle drv t hardware_id circuit_id) →
      (KvaserCan.open drv t s hardware_id circuit_id bitrate echo_on).1 = ReturnStatuses.OK ∧
        busParamFreqs (KvaserCan.open drv t s hardware_id circuit_id bitrate echo_on).2.2 =
          canBITRATE_250K :: busParamFreqs t) ∧
    (bitrate = 500000 →
      0 ≤ drv.canSetBusParams (historyAfterOpenChannel drv t hardware_id circuit_id)
          (openedHandle drv t hardware_id circuit_id) canBITRATE_500K →
      0 ≤ drv.canBusOn
          (historyBeforeBusOn drv t hardware_id circuit_id canBITRATE_500K echo_on)
          (openedHandle drv t hardware_id circuit_id) →
      (KvaserCan.open drv t s hardware_id circuit_id bitrate echo_on).1 = ReturnStatuses.OK ∧
        busParamFreqs (KvaserCan.open drv t s hardware_id circuit_id bitrate echo_on).2.2 =
          canBITRATE_500K :: busParamFreqs t) ∧
    (bitrate = 1000000 →
      0 ≤ drv.canSetBusParams (historyAfterOpenChannel drv t hardware_id circuit_id)
          (openedHandle drv t hardware_id circuit_id) canBITRATE_1M →
      0 ≤ drv.canBusOn
          (historyBeforeBusOn drv t hardware_id circuit_id canBITRATE_1M echo_on)
          (openedHandle drv t hardware_id circuit_id) →
      (KvaserCan.open drv t s hardware_id circuit_id bitrate echo_on).1 = ReturnStatuses.OK ∧
        busParamFreqs (KvaserCan.open drv t s hardware_id circuit_id bitrate echo_on).2.2 =
          canBITRATE_1M :: busParamFreqs t) ∧
    (bitrate ≠ 125000 ∧ bitrate ≠ 250000 ∧ bitrate ≠ 500000 ∧ bitrate ≠ 1000000 →
      (KvaserCan.open drv t s hardware_id circuit_id bitrate echo_on).1 =
          ReturnStatuses.BAD_PARAM ∧
        busParamFreqs (KvaserCan.open drv t s hardware_id circuit_id bitrate echo_on).2.2 =
          busParamFreqs t) := by
  refine ⟨fun h hp hb => ?_, fun h hp hb => ?_, fun h hp hb => ?_, fun h hp hb => ?_,
    fun h => ?_⟩
  · exact open_accepts drv t s _ _ _ _ _ hs hc hres hopen
      (by rw [h]; simp [freqOfBitrate]) hp hb
  · exact open_accepts drv t s _ _ _ _ _ hs hc hres hopen
      (by rw [h]; simp [freqOfBitrate]) hp hb
  · exact open_accepts drv t s _ _ _ _ _ hs hc hres hopen
      (by rw [h]; simp [freqOfBitrate]) hp hb
  · exact open_accepts drv t s _ _ _ _ _ hs hc hres hopen
      (by rw [h]; simp [freqOfBitrate]) hp hb
  · have hfreq := freqOfBitrate_eq_none bitrate h
    have hb := resolveScan_busParamFreqs drv t hardware_id circuit_id
    have h1 : ¬ openedHandle drv t hardware_id circuit_id < 0 := by omega
    unfold openedHandle at h1
    unfold resolveScan at hres hb h1
    unfold KvaserCan.open
    simp [hs, hc, hfreq, hres, h1, busParamFreqs, hb]

/-- C16 at concrete inputs, on the two-channel card with a driver that refuses
unknown channels and negative handles: the bit rate 250000 is accepted and
configured as `canBITRATE_250K`; the bit rates 0 and -500000 are rejected with
BAD_PARAM. -/
theorem open_accepted_bitrates_witness :
    (strictCardDriver.canOpenChannel [] 7 canOPEN_ACCEPT_VIRTUAL < 0 ∧
      strictCardDriver.canBusOn [] (-1) < 0) ∧
    ((KvaserCan.open strictCardDriver [] { handle := -1, on_bus := false } 1234 0 250000
        false).1 = ReturnStatuses.OK ∧
      busParamFreqs
          (KvaserCan.open strictCardDriver [] { handle := -1, on_bus := false } 1234 0 250000
            false).2.2 = canBITRATE_250K :: busParamFreqs []) ∧
    (KvaserCan.open strictCardDriver [] { handle := -1, on_bus := false } 1234 0 0 true).1 =
      ReturnStatuses.BAD_PARAM ∧
    (KvaserCan.open strictCardDriver [] { handle := -1, on_bus := false } 1234 0 (-500000)
      true).1 = ReturnStatuses.BAD_PARAM :=
  ⟨by decide,
    (open_accepted_bitrates strictCardDriver [] { handle := -1, on_bus := false } 1234 0 250000
      false rfl (by decide) (by decide) (by decide)).2.1 rfl (by decide) (by decide),
    ((open_accepted_bitrates strictCardDriver [] { handle := -1, on_bus := false } 1234 0 0
      true rfl (by decide) (by decide) (by decide)).2.2.2.2 (by decide)).1,
    ((open_accepted_bitrates strictCardDriver [] { handle := -1, on_bus := false } 1234 0
      (-500000) true rfl (by decide) (by decide) (by decide)).2.2.2.2 (by decide)).1⟩

/-- C17. For every driver status code `stat`, `canlibStatToReturnStatus stat`
is OK exactly when `stat` is `canOK`, BAD_PARAM exactly when it is
`canERR_PARAM`, NO_CHANNELS_FOUND exactly when it is `canERR_NOTFOUND`, and
INIT_FAILED for every other code; `getChannelCount` returns this translation
of the status of the driver's count query, and so does `open` on a session
that is not on bus when the count query fails, without any further driver
call and leaving the session unchanged. -/
theorem canlibStatToReturnStatus_spec (stat : Int) (drv : Driver) (t : Trace) (s : KvaserCan)
    (hardware_id circuit_id bitrate : Int) (echo_on : Bool) :
    (KvaserCanUtils.canlibStatToReturnStatus stat = ReturnStatuses.OK ↔ stat = canOK) ∧
    (KvaserCanUtils.canlibStatToReturnStatus stat = ReturnStatuses.BAD_PARAM ↔
      stat = canERR_PARAM) ∧
    (KvaserCanUtils.canlibStatToReturnStatus stat = ReturnStatuses.NO_CHANNELS_FOUND ↔
      stat = canERR_NOTFOUND) ∧
    (stat ≠ canOK → stat ≠ canERR_PARAM → stat ≠ canERR_NOTFOUND →
      KvaserCanUtils.canlibStatToReturnStatus stat = ReturnStatuses.INIT_FAILED) ∧
    (KvaserCanUtils.getChannelCount drv t).1 =
      KvaserCanUtils.canlibStatToReturnStatus (drv.canGetNumberOfChannels t).1 ∧
    (s.on_bus = false → (drv.canGetNumberOfChannels t).1 ≠ canOK →
      KvaserCan.open drv t s hardware_id circuit_id bitrate echo_on =
        (KvaserCanUtils.canlibStatToReturnStatus (drv.canGetNumberOfChannels t).1, s,
          DriverEvent.getNumberOfChannels (drv.canGetNumberOfChannels t).1
            (drv.canGetNumberOfChannels t).2 :: t)) := by
  refine ⟨?_, ?_, ?_, ?_, rfl, ?_⟩
  · unfold KvaserCanUtils.canlibStatToReturnStatus
    split_ifs with h1 h2 h3 <;> simp_all
  · unfold KvaserCanUtils.canlibStatToReturnStatus
    split_ifs with h1 h2 h3 <;> simp_all [canOK, canERR_PARAM]
  · unfold KvaserCanUtils.canlibStatToReturnStatus
    split_ifs with h1 h2 h3 <;> simp_all [canOK, canERR_PARAM, canERR_NOTFOUND]
  · intro h1 h2 h3
    simp [KvaserCanUtils.canlibStatToReturnStatus, h1, h2, h3]
  · intro hs hne
    have hc : (KvaserCanUtils.getChannelCount drv t).1 ≠ ReturnStatuses.OK := by
      simp only [KvaserCanUtils.getChannelCount]
      unfold KvaserCanUtils.canlibStatToReturnStatus
      split_ifs <;> simp_all
    unfold KvaserCan.open
    simp only [hs, Bool.false_eq_true, if_false]
    rw [if_pos hc]
    rfl

/-- C17 at concrete inputs: the status -7 translates to INIT_FAILED, and `open`
against a driver whose count query fails returns the translated status. -/
theorem canlibStatToReturnStatus_spec_witness :
    KvaserCanUtils.canlibStatToReturnStatus (-7) = ReturnStatuses.INIT_FAILED ∧
    KvaserCan.open nullDriver [] { handle := -1, on_bus := false } 1 0 500000 true =
      (KvaserCanUtils.canlibStatToReturnStatus (nullDriver.canGetNumberOfChannels []).1,
        { handle := -1, on_bus := false },
        [DriverEvent.getNumberOfChannels (nullDriver.canGetNumberOfChannels []).1
          (nullDriver.canGetNumberOfChannels []).2]) :=
  ⟨(canlibStatToReturnStatus_spec (-7) nullDriver [] { handle := -1, on_bus := false } 1 0
      500000 true).2.2.2.1 (by decide) (by decide) (by decide),
    (canlibStatToReturnStatus_spec (-7) nullDriver [] { handle := -1, on_bus := false } 1 0
      500000 true).2.2.2.2.2 rfl (by decide)⟩

/-- C18, as stated, fails: for the Result value OK, `returnStatusDesc` returns
the empty string, not a non-empty sentence. -/
theorem returnStatusDesc_ok_empty :
    KvaserCanUtils.returnStatusDesc ReturnStatuses.OK = "" := by
  decide

/-- C18, amended.  For each of the eight Result values other than OK,
`returnStatusDesc` returns a fixed, non-empty sentence; for OK, which no
branch handles, it returns the empty string; and two different Result values
never get the same string. -/
theorem returnStatusDesc_spec :
    (∀ ret, ret ≠ ReturnStatuses.OK → KvaserCanUtils.returnStatusDesc ret ≠ "") ∧
    KvaserCanUtils.returnStatusDesc ReturnStatuses.OK = "" ∧
    (∀ a b, KvaserCanUtils.returnStatusDesc a = KvaserCanUtils.returnStatusDesc b → a = b) := by
  refine ⟨?_, by decide, ?_⟩
  · intro ret h
    cases ret <;> first | exact absurd rfl h | decide
  · intro a b
    cases a <;> cases b <;> first | (intro; rfl) | decide

/-- C19. An event of status OK whose flag word has the remote-request bit
`canMSG_RTR` (0x01) set never ends the read loop, whatever its other flag
bits: at any point of the loop, one iteration on such an event does not end
the loop, the event is consumed and the loop goes on from the next driver
read.  So on a session whose handle is non-negative, `read` with fuel for one
iteration does not return on such a first event, and whenever `read` returns,
its history holds a further `canRead` issued after that event. -/
theorem read_skips_remote_request (drv : Driver) (t : Trace) (s : KvaserCan)
    (buf : CanFrame) (f : CanFrame) (fuel : Nat)
    (hrep : drv.canRead t s.handle buf = (canOK, f))
    (hrtr : f.flag &&& canMSG_RTR ≠ 0) :
    readLoop drv 1 t s buf = none ∧
    readLoop drv (fuel + 1) t s buf =
        readLoop drv fuel (DriverEvent.read s.handle canOK f :: t) s f ∧
    (∀ out : ReadOut, 0 ≤ s.handle → out.toFrame = buf →
      KvaserCan.read drv 1 t s out = none ∧
      ∀ r, KvaserCan.read drv fuel t s out = some r →
        ∃ es, r.2.2.2 = es ++
          DriverEvent.read s.handle
              (drv.canRead (DriverEvent.read s.handle canOK f :: t) s.handle f).1
              (drv.canRead (DriverEvent.read s.handle canOK f :: t) s.handle f).2 ::
            DriverEvent.read s.handle canOK f :: t) := by
  have hmask := rtr_in_ignore_mask f.flag hrtr
  have hstep : ∀ n, readLoop drv (n + 1) t s buf =
      readLoop drv n (DriverEvent.read s.handle canOK f :: t) s f := by
    intro n
    rw [readLoop, hrep]
    simp only
    rw [if_neg (by decide), if_neg (by decide), if_neg (by simp), if_neg hmask]
  have hone : readLoop drv 1 t s buf = none := by rw [hstep 0, readLoop]
  refine ⟨hone, hstep fuel, ?_⟩
  intro out hh hbuf
  have hneg : ¬ s.handle < 0 := by omega
  subst hbuf
  constructor
  · unfold KvaserCan.read
    rw [if_neg hneg, hone]
  · intro r hr
    unfold KvaserCan.read at hr
    rw [if_neg hneg] at hr
    cases fuel with
    | zero => simp [readLoop] at hr
    | succ n =>
      rw [hstep n] at hr
      cases hl : readLoop drv n (DriverEvent.read s.handle canOK f :: t) s f with
      | none => simp [hl] at hr
      | some r1 =>
        obtain ⟨es, hes⟩ := readLoop_trace drv n _ s f r1 hl
        obtain ⟨ret_val, s1, b1, t1⟩ := r1
        simp only [hl] at hr
        rw [← Option.some.inj hr]
        exact ⟨es, hes⟩

/-- C19 at a concrete input: a remote request with the standard bit set (flag
`0x03`) as first event is passed over; `read` with fuel for one iteration does
not return, and with fuel for two it returns the data frame that follows. -/
theorem read_skips_remote_request_witness :
    (KvaserCan.read rtrDataDriver 1 [] { handle := 0, on_bus := true }
        { id := 0, msg := [], size := 0, extended := false, time := 0 } = none ∧
      ∀ r, KvaserCan.read rtrDataDriver 2 [] { handle := 0, on_bus := true }
          { id := 0, msg := [], size := 0, extended := false, time := 0 } = some r →
        ∃ es, r.2.2.2 = es ++
          DriverEvent.read 0
              (rtrDataDriver.canRead [DriverEvent.read 0 canOK rtrFrame] 0 rtrFrame).1
              (rtrDataDriver.canRead [DriverEvent.read 0 canOK rtrFrame] 0 rtrFrame).2 ::
            [DriverEvent.read 0 canOK rtrFrame]) ∧
    KvaserCan.read rtrDataDriver 2 [] { handle := 0, on_bus := true }
        { id := 0, msg := [], size := 0, extended := false, time := 0 } =
      some (ReturnStatuses.OK, { handle := 0, on_bus := true },
        { id := 0x123, msg := [0xDE, 0xAD], size := 2, extended := false, time := 30 },
        [DriverEvent.read 0 canOK dataFrame123, DriverEvent.read 0 canOK rtrFrame]) :=
  ⟨(read_skips_remote_request rtrDataDriver [] { handle := 0, on_bus := true }
      { id := 0, msg := [], size := 0, flag := 0, time := 0 } rtrFrame 2 (by decide)
      (by decide)).2.2 { id := 0, msg := [], size := 0, extended := false, time := 0 }
      (by decide) rfl,
    by decide⟩

/-- C20. On a session that is not on bus, with a driver whose count query
succeeds with `N` channels: if index `i` in `[0, N)` satisfies both predicates
and no larger index in `[0, N)` does, then, whatever the smaller indices
answer (also when some of them satisfy both predicates), the resolution scan
selects `i` and `open` issues exactly one `canOpenChannel` call, on channel
`i`: of several matching indices the largest is opened. -/
theorem open_selects_last_match (drv : Driver) (t : Trace) (s : KvaserCan)
    (hardware_id circuit_id bitrate : Int) (echo_on : Bool) (N i : Int)
    (hs : s.on_bus = false)
    (hN : drv.canGetNumberOfChannels t = (canOK, N))
    (hi0 : 0 ≤ i) (hiN : i < N)
    (hm : IsMatch drv hardware_id circuit_id i)
    (hafter : ∀ j, i < j → j < N → IsNoMatch drv hardware_id circuit_id j) :
    (resolveScan drv t hardware_id circuit_id).1 = i ∧
      openedChannels (KvaserCan.open drv t s hardware_id circuit_id bitrate echo_on).2.2 =
        i :: openedChannels t := by
  obtain ⟨hc, hn⟩ := getChannelCount_of_ok drv t N hN
  have hres : (resolveScan drv t hardware_id circuit_id).1 = i := by
    unfold resolveScan
    rw [hn]
    apply scanChannels_last _ _ _ _ _ _ _ i (by omega) _ hm
    · intro j hj1 hj2
      exact hafter j hj1 (by omega)
    · omega
  refine ⟨hres, ?_⟩
  rw [open_openedChannels drv t s _ _ _ _ hs hc (by rw [hres]; omega), hres]

/-- C20 at a concrete input: on the card whose indices 0 and 2 both match the
pair (1234, 0), `open` opens channel 2. -/
theorem open_selects_last_match_witness :
    (IsMatch twinDriver 1234 0 0 ∧ IsMatch twinDriver 1234 0 2) ∧
    (resolveScan twinDriver [] 1234 0).1 = 2 ∧
    openedChannels
        (KvaserCan.open twinDriver [] { handle := -1, on_bus := false } 1234 0 500000
          true).2.2 = 2 :: openedChannels [] :=
  ⟨⟨⟨fun t => by simp [SerialMatchesAt, twinDriver, toUInt32],
        fun t => by simp [CircuitMatchesAt, twinDriver, toUInt32]⟩,
      ⟨fun t => by simp [SerialMatchesAt, twinDriver, toUInt32],
        fun t => by simp [CircuitMatchesAt, twinDriver, toUInt32]⟩⟩,
    open_selects_last_match twinDriver [] { handle := -1, on_bus := false } 1234 0 500000 true
      3 2 rfl rfl (by decide) (by decide)
      ⟨fun t => by simp [SerialMatchesAt, twinDriver, toUInt32],
        fun t => by simp [CircuitMatchesAt, twinDriver, toUInt32]⟩
      (fun j hj1 hj2 => by omega)⟩

end AS.CAN
